import Mathlib

/-!
Shallow embedding of the pixel-domain kernels of this repository:

* `src/test/sad_test.cc` — the portable reference implementations of the
  distortion metrics (`ReferenceSAD`, `ReferenceSADavg`) and of the
  differential harness checks over them.
* `src/vpx_dsp/arm/highbd_intrapred_neon.c` — the high-bit-depth intra
  predictors (DC, V, H, TM, D45, D117, D135) for 4x4 up to 32x32 blocks.

Conventions of the embedding:

* A pixel buffer is a flat function `Nat → Nat` addressed by
  `row * stride + column`; samples are plain naturals, with an explicit
  `% 2 ^ 16` (`u16`) wherever the C code stores into a 16-bit lane and an
  explicit `% 2 ^ 32` wherever it accumulates into an `unsigned int`.
* Signed 16-bit NEON arithmetic (the TM predictor) is modelled on `Int`
  through `wrap16`, two's-complement wrap-around at 16 bits.
* NEON halving adds `vhadd`/`vrhadd` are exact on the full sum by
  architecture (the intermediate is widened), so they carry no mod.
-/

-- ===========================================================================
-- Machine-arithmetic primitives
-- ===========================================================================

/-- Truncation to an unsigned 16-bit storage cell. -/
def u16 (x : Nat) : Nat := x % 65536

/-- Truncation of an `unsigned int` accumulator (32-bit). -/
def u32 (x : Nat) : Nat := x % 4294967296

/-- Largest `unsigned int` value, `UINT_MAX`. -/
def UMAX : Nat := 4294967295

/-- Two's-complement wrap-around of an `Int` into the `int16_t` range. -/
def wrap16 (x : Int) : Int := (x + 32768) % 65536 - 32768

/-- `vhaddq_u16`: truncating halving add. NEON computes the full sum in a
widened intermediate, so the result is exact for every pair of u16 lanes. -/
def vhadd (x y : Nat) : Nat := (x + y) / 2

/-- `vrhaddq_u16`: rounding halving add, again exact on the full sum. -/
def vrhadd (x y : Nat) : Nat := (x + y + 1) / 2

/-- `vqshluq_n_s16(x, 0)`: saturating signed-to-unsigned conversion; a
negative lane saturates to 0 (no lane of interest ever exceeds 65535). -/
def vqshlu0 (x : Int) : Nat := if x < 0 then 0 else x.toNat

/-- `abs(a - b)` on samples promoted to `int`, as the C reference loops do. -/
def absdiff (a b : Nat) : Nat := ((a : Int) - (b : Int)).natAbs

/-- The spec's two-tap average `avg2(x,y) = (x+y+1) >> 1`. -/
def avg2 (x y : Nat) : Nat := (x + y + 1) / 2

/-- The spec's three-tap average `avg3(x,y,z) = (x+2y+z+2) >> 2`. -/
def avg3 (x y z : Nat) : Nat := (x + 2 * y + z + 2) / 4

/-- `x` and `y` are within 3 of each other. -/
def within3 (x y : Nat) : Prop := x ≤ y + 3 ∧ y ≤ x + 3

-- ===========================================================================
-- Distortion metrics (src/test/sad_test.cc)
-- ===========================================================================

/-- One row of `SADTestBase::ReferenceSAD`'s double loop: the inner
`for (w = 0; w < width_; ++w) sad += abs(source[h*ss+w] - reference[h*rs+w])`. -/
def sadRow (src ref : Nat → Nat) (ss rs w : Nat) (r : Nat) : Nat :=
  ((List.range w).map (fun c => absdiff (src (r * ss + c)) (ref (r * rs + c)))).sum

/-- The outer row loop shared by `ReferenceSAD` and `ReferenceSADavg`:
accumulate a row's cost into the `unsigned int sad` (mod `2^32`; folding the
per-pixel wrap-arounds of one row into a single one is exact since
`(a % m + b) % m = (a + b) % m`), then `if (sad > max_sad) break;`. -/
def sadRows (rowCost : Nat → Nat) (maxSad : Nat) : List Nat → Nat → Nat
  | [], sad => sad
  | r :: rest, sad =>
    let sad2 := u32 (sad + rowCost r)
    if maxSad < sad2 then sad2 else sadRows rowCost maxSad rest sad2

/-- `SADTestBase::ReferenceSAD(max_sad)`: row-major accumulation of absolute
differences with an early exit after any completed row whose running sum
exceeds `max_sad`. -/
def ReferenceSAD (src ref : Nat → Nat) (ss rs w h maxSad : Nat) : Nat :=
  sadRows (sadRow src ref ss rs w) maxSad (List.range h) 0

/-- The true (unbounded, exact) SAD of the same `width x height` rectangle. -/
def trueSAD (src ref : Nat → Nat) (ss rs w h : Nat) : Nat :=
  ((List.range h).map (sadRow src ref ss rs w)).sum

/-- `ROUND_POWER_OF_TWO(ref + sec, 1)` stored into a `uint16_t comp_pred`. -/
def compPred (refv secv : Nat) : Nat := u16 ((refv + secv + 1) / 2)

/-- One row of `SADTestBase::ReferenceSADavg`'s double loop; the second
predictor is tightly packed (its stride is the block width `w`). -/
def sadAvgRow (src ref sec : Nat → Nat) (ss rs w : Nat) (r : Nat) : Nat :=
  ((List.range w).map
    (fun c => absdiff (src (r * ss + c)) (compPred (ref (r * rs + c)) (sec (r * w + c))))).sum

/-- `SADTestBase::ReferenceSADavg(max_sad)`: SAD of the source against the
rounded average of reference and second predictor, same early exit. -/
def ReferenceSADavg (src ref sec : Nat → Nat) (ss rs w h maxSad : Nat) : Nat :=
  sadRows (sadAvgRow src ref sec ss rs w) maxSad (List.range h) 0

/-- Modelled from the spec: the batched four-reference kernel `sad_x4` itself
is not under `src/` (only its differential harness `SADx4Test` is). Per the
spec, "Each of the four SADs is independently computed by the single-reference
algorithm with no bound"; the harness compares each lane against
`ReferenceSAD(UINT_MAX, block)`. -/
def sadX4 (src : Nat → Nat) (ss : Nat) (refs : Fin 4 → Nat → Nat) (rs w h : Nat) :
    Fin 4 → Nat :=
  fun i => ReferenceSAD src (refs i) ss rs w h UMAX

-- ===========================================================================
-- Intra predictors, per-cell values (src/vpx_dsp/arm/highbd_intrapred_neon.c)
--
-- Each `vpx_highbd_*_predictor_NxN` below gives the value the NEON kernel
-- stores at block cell (r, c), 0 <= r, c < N.  `above` and `left` are the
-- border row/column; `tl` is the above-left corner sample `above[-1]`.
-- ===========================================================================

/-- `vpx_highbd_dc_predictor_4x4_neon`'s sum: `vadd_u16(a, l)` then two
`vpadd_u16` reductions, every u16 lane truncated. -/
def dc_4x4_sum (above left : Nat → Nat) : Nat :=
  let s : Nat → Nat := fun i => u16 (above i + left i)
  let t0 := u16 (s 0 + s 1)
  let t1 := u16 (s 2 + s 3)
  u16 (t0 + t1)

/-- `vpx_highbd_dc_predictor_4x4_neon`: every cell is
`vrshr_n_u16(sum, 3) = (sum + 4) >> 3`. -/
def vpx_highbd_dc_predictor_4x4 (above left : Nat → Nat) (_r _c : Nat) : Nat :=
  (dc_4x4_sum above left + 4) / 8

/-- `vpx_highbd_dc_predictor_8x8_neon`'s sum: `vaddq_u16(above, left)`,
low+high halves, then two `vpadd_u16` reductions. -/
def dc_8x8_sum (above left : Nat → Nat) : Nat :=
  let p0 : Nat → Nat := fun i => u16 (above i + left i)
  let s : Nat → Nat := fun j => u16 (p0 j + p0 (j + 4))
  let t0 := u16 (s 0 + s 1)
  let t1 := u16 (s 2 + s 3)
  u16 (t0 + t1)

/-- `vpx_highbd_dc_predictor_8x8_neon`: every cell is `(sum + 8) >> 4`. -/
def vpx_highbd_dc_predictor_8x8 (above left : Nat → Nat) (_r _c : Nat) : Nat :=
  (dc_8x8_sum above left + 8) / 16

/-- `vpx_highbd_dc_predictor_16x16_neon`'s two u16 partial sums `q0, q1`
(after `vld2q`, `vaddq`, low+high, `vpadd`); the kernel then widens with
`vpaddl_u16`, so `q0 + q1` is added without truncation. -/
def dc_16x16_sum (above left : Nat → Nat) : Nat :=
  let pa : Nat → Nat := fun j => u16 (above (2 * j) + above (2 * j + 1))
  let pl : Nat → Nat := fun j => u16 (left (2 * j) + left (2 * j + 1))
  let pal0 : Nat → Nat := fun j => u16 (pa j + pl j)
  let pal1 : Nat → Nat := fun j => u16 (pal0 j + pal0 (j + 4))
  let q0 := u16 (pal1 0 + pal1 1)
  let q1 := u16 (pal1 2 + pal1 3)
  q0 + q1

/-- `vpx_highbd_dc_predictor_16x16_neon`: every cell is
`vrshr_n_u32(sum, 5) = (sum + 16) >> 5`. -/
def vpx_highbd_dc_predictor_16x16 (above left : Nat → Nat) (_r _c : Nat) : Nat :=
  (dc_16x16_sum above left + 16) / 32

/-- `vpx_highbd_dc_predictor_32x32_neon`'s u32 sum: `vld4q` adds, low+high,
`vpadd`, then `vpaddl_u16` widens to u32 and `vpadd_u32` finishes. -/
def dc_32x32_sum (above left : Nat → Nat) : Nat :=
  let a : Nat → Nat → Nat := fun k j => above (4 * j + k)
  let l : Nat → Nat → Nat := fun k j => left (4 * j + k)
  let pa : Nat → Nat := fun j => u16 (u16 (a 0 j + a 1 j) + u16 (a 2 j + a 3 j))
  let pl : Nat → Nat := fun j => u16 (u16 (l 0 j + l 1 j) + u16 (l 2 j + l 3 j))
  let pal0 : Nat → Nat := fun j => u16 (pa j + pl j)
  let pal1 : Nat → Nat := fun j => u16 (pal0 j + pal0 (j + 4))
  let s0 := pal1 0 + pal1 1
  let s1 := pal1 2 + pal1 3
  u32 (s0 + s1)

/-- `vpx_highbd_dc_predictor_32x32_neon`: every cell is
`vrshr_n_u32(sum, 6) = (sum + 32) >> 6`. -/
def vpx_highbd_dc_predictor_32x32 (above left : Nat → Nat) (_r _c : Nat) : Nat :=
  (dc_32x32_sum above left + 32) / 64

/-- `vpx_highbd_v_predictor_4x4_neon`: the above row copied into every row. -/
def vpx_highbd_v_predictor_4x4 (above : Nat → Nat) (_r c : Nat) : Nat := above c

/-- `vpx_highbd_v_predictor_8x8_neon`. -/
def vpx_highbd_v_predictor_8x8 (above : Nat → Nat) (_r c : Nat) : Nat := above c

/-- `vpx_highbd_v_predictor_16x16_neon` (`vld2q`/`vst2q` de/re-interleave,
so cell (r, c) holds `above[c]`). -/
def vpx_highbd_v_predictor_16x16 (above : Nat → Nat) (_r c : Nat) : Nat := above c

/-- `vpx_highbd_v_predictor_32x32_neon`. -/
def vpx_highbd_v_predictor_32x32 (above : Nat → Nat) (_r c : Nat) : Nat := above c

/-- `vpx_highbd_h_predictor_4x4_neon`: row r filled with `left[r]` by
`vdup_lane_u16`. -/
def vpx_highbd_h_predictor_4x4 (left : Nat → Nat) (r _c : Nat) : Nat := left r

/-- `vpx_highbd_h_predictor_8x8_neon`. -/
def vpx_highbd_h_predictor_8x8 (left : Nat → Nat) (r _c : Nat) : Nat := left r

/-- `vpx_highbd_h_predictor_16x16_neon`. -/
def vpx_highbd_h_predictor_16x16 (left : Nat → Nat) (r _c : Nat) : Nat := left r

/-- `vpx_highbd_h_predictor_32x32_neon`. -/
def vpx_highbd_h_predictor_32x32 (left : Nat → Nat) (r _c : Nat) : Nat := left r

/-- The TM cell computation shared by `vpx_highbd_tm_predictor_{4x4,8x8}_neon`
and `tm_8_kernel`/`tm_16_kernel`/`tm_32_kernel`: in `int16` lanes,
`sub = above[c] - above[-1]`, `sum = left[r] + sub`, `vminq_s16` against
`(1 << bd) - 1`, then `vqshluq_n_s16(sum, 0)` saturates negatives to 0. -/
def tm_cell (bd : Nat) (above : Nat → Nat) (tl : Nat) (left : Nat → Nat)
    (r c : Nat) : Nat :=
  let mx : Int := 2 ^ bd - 1
  let sub : Int := wrap16 ((above c : Int) - (tl : Int))
  let sum : Int := wrap16 ((left r : Int) + sub)
  vqshlu0 (min sum mx)

/-- `vpx_highbd_tm_predictor_4x4_neon` (rows paired two at a time via
`vcombine_s16` of duplicated left lanes; per cell it is `tm_cell`). -/
def vpx_highbd_tm_predictor_4x4 (bd : Nat) (above : Nat → Nat) (tl : Nat)
    (left : Nat → Nat) (r c : Nat) : Nat :=
  tm_cell bd above tl left r c

/-- `vpx_highbd_tm_predictor_8x8_neon` via `tm_8_kernel`. -/
def vpx_highbd_tm_predictor_8x8 (bd : Nat) (above : Nat → Nat) (tl : Nat)
    (left : Nat → Nat) (r c : Nat) : Nat :=
  tm_cell bd above tl left r c

/-- `vpx_highbd_tm_predictor_16x16_neon` via `tm_16_kernel`. -/
def vpx_highbd_tm_predictor_16x16 (bd : Nat) (above : Nat → Nat) (tl : Nat)
    (left : Nat → Nat) (r c : Nat) : Nat :=
  tm_cell bd above tl left r c

/-- `vpx_highbd_tm_predictor_32x32_neon` via `tm_32_kernel`. -/
def vpx_highbd_tm_predictor_32x32 (bd : Nat) (above : Nat → Nat) (tl : Nat)
    (left : Nat → Nat) (r c : Nat) : Nat :=
  tm_cell bd above tl left r c

/-- Lane i of `vpx_highbd_d45_predictor_4x4_neon`'s
`avg2 = vrhaddq_u16(vhaddq_u16(ABCDEFGH, CDEFGH00), BCDEFGH0)`. -/
def d45_lane (above : Nat → Nat) (i : Nat) : Nat :=
  vrhadd (vhadd (above i) (above (i + 2))) (above (i + 1))

/-- `vpx_highbd_d45_predictor_4x4_neon`: row r is lanes r..r+3 of `avg2`
(`vext_u16` by r), and the final `vst1q_lane_u16(dst + 3, ABCDEFGH, 7)`
overwrites cell (3,3) with `above[7]`. -/
def vpx_highbd_d45_predictor_4x4 (above : Nat → Nat) (r c : Nat) : Nat :=
  if r = 3 ∧ c = 3 then above 7 else d45_lane above (c + r)

/-- `vpx_highbd_d117_predictor_4x4_neon`: the four stored rows, built from
`d0 = vrhadd(az, a0)`, `d1 = vrhadd(vhadd(l0az, a0), az)` and lanes 0 and 1 of
`col0 = vrhadd(vhadd(azl0, l1), l0)` where `az = above[-1..2]`,
`a0 = above[0..3]`, `l0az = [left[0], above[-1], above[0], above[1]]`,
`l0 = left[0..3]`, `l1 = [left[1], left[2], left[3], left[0]]`,
`azl0 = [above[-1], left[0], left[1], left[2]]`.  Row 2 is
`vext_u16(col0_even, d0, 3) = [col0[0], d0[0], d0[1], d0[2]]` and row 3 is
`[col0[1], d1[0], d1[1], d1[2]]`. -/
def vpx_highbd_d117_predictor_4x4 (above : Nat → Nat) (tl : Nat)
    (left : Nat → Nat) (r c : Nat) : Nat :=
  let az : Nat → Nat := fun i => if i = 0 then tl else above (i - 1)
  let a0 : Nat → Nat := above
  let l0az : Nat → Nat := fun i =>
    if i = 0 then left 0 else if i = 1 then tl else above (i - 2)
  let l0 : Nat → Nat := left
  let l1 : Nat → Nat := fun i => if i = 3 then left 0 else left (i + 1)
  let azl0 : Nat → Nat := fun i => if i = 0 then tl else left (i - 1)
  let d0 : Nat → Nat := fun i => vrhadd (az i) (a0 i)
  let d1 : Nat → Nat := fun i => vrhadd (vhadd (l0az i) (a0 i)) (az i)
  let col0 : Nat → Nat := fun i => vrhadd (vhadd (azl0 i) (l1 i)) (l0 i)
  if r = 0 then d0 c
  else if r = 1 then d1 c
  else if r = 2 then (if c = 0 then col0 0 else d0 (c - 1))
  else (if c = 0 then col0 1 else d1 (c - 1))

/-- `vpx_highbd_d135_predictor_4x4_neon`: lane i of
`avg2 = vrhaddq_u16(vhaddq_u16(L3210XA012, L10XA0123_), L210XA0123)` is the
three-tap average of the walk `[left[3], left[2], left[1], left[0],
above[-1], above[0], above[1], above[2], above[3], above[4]]` at positions
i, i+1, i+2; row r stores lanes (3-r)..(3-r)+3 (`vext` by 3-r). -/
def d135_walk (above : Nat → Nat) (tl : Nat) (left : Nat → Nat) (i : Nat) : Nat :=
  if i < 4 then left (3 - i) else if i = 4 then tl else above (i - 5)

/-- Lane i of the D135 4x4 `avg2` vector. -/
def d135_lane (above : Nat → Nat) (tl : Nat) (left : Nat → Nat) (i : Nat) : Nat :=
  vrhadd (vhadd (d135_walk above tl left i) (d135_walk above tl left (i + 2)))
    (d135_walk above tl left (i + 1))

/-- `vpx_highbd_d135_predictor_4x4_neon` per cell. -/
def vpx_highbd_d135_predictor_4x4 (above : Nat → Nat) (tl : Nat)
    (left : Nat → Nat) (r c : Nat) : Nat :=
  d135_lane above tl left (3 - r + c)

-- ===========================================================================
-- Intra predictors, store semantics: destination memory as a flat function
-- ===========================================================================

/-- A single 16-bit store at address `a`. -/
def wstore (m : Nat → Nat) (a v : Nat) : Nat → Nat :=
  fun x => if x = a then v else m x

/-- `n` consecutive stores at `base, base+1, ..., base+n-1` with values
`v 0 .. v (n-1)` (the addresses are distinct, so the order of the stores
within one vector-store instruction is immaterial). -/
def storeN (m : Nat → Nat) (base : Nat) (v : Nat → Nat) : Nat → (Nat → Nat)
  | 0 => m
  | n + 1 => wstore (storeN m base v n) (base + n) (v n)

/-- `dc_store_4x4`: four `vst1_u16` of the duplicated dc lane, one per row. -/
def dc_store_4x4_run (m : Nat → Nat) (dst stride dc : Nat) : Nat → Nat :=
  storeN (storeN (storeN (storeN m dst (fun _ => dc) 4)
    (dst + stride) (fun _ => dc) 4)
    (dst + 2 * stride) (fun _ => dc) 4)
    (dst + 3 * stride) (fun _ => dc) 4

/-- `vpx_highbd_dc_predictor_4x4_neon` acting on destination memory `m`. -/
def vpx_highbd_dc_predictor_4x4_run (m : Nat → Nat) (dst stride : Nat)
    (above left : Nat → Nat) : Nat → Nat :=
  dc_store_4x4_run m dst stride ((dc_4x4_sum above left + 4) / 8)

/-- `vpx_highbd_d45_predictor_4x4_neon` acting on destination memory `m`:
four row stores of `vext`-shifted `avg2` lanes, then the single
`vst1q_lane_u16(dst + 3, ABCDEFGH, 7)` into cell (3,3). -/
def vpx_highbd_d45_predictor_4x4_run (m : Nat → Nat) (dst stride : Nat)
    (above : Nat → Nat) : Nat → Nat :=
  let m0 := storeN m dst (fun j => d45_lane above j) 4
  let m1 := storeN m0 (dst + stride) (fun j => d45_lane above (1 + j)) 4
  let m2 := storeN m1 (dst + 2 * stride) (fun j => d45_lane above (2 + j)) 4
  let m3 := storeN m2 (dst + 3 * stride) (fun j => d45_lane above (3 + j)) 4
  wstore m3 (dst + 3 * stride + 3) (above 7)

/-- `vst2q_u16` of the two deinterleaved halves `v0`, `v1`: lane j of `v0`
goes to `base + 2j`, lane j of `v1` to `base + 2j + 1`. -/
def vst2q_run (m : Nat → Nat) (base : Nat) (v0 v1 : Nat → Nat) : Nat → Nat :=
  storeN m base (fun i => if i % 2 = 0 then v0 (i / 2) else v1 (i / 2)) 16

/-- The first `n` iterations of `vpx_highbd_v_predictor_32x32_neon`'s loop:
row i stores `vld2q(above)` at `dst + i*stride` and `vld2q(above + 16)` at
`dst + i*stride + 16` (deinterleave then reinterleave, so sample j of the
row is `above j`). -/
def v32_rows (stride : Nat) (above : Nat → Nat) (dst : Nat) (m : Nat → Nat) :
    Nat → (Nat → Nat)
  | 0 => m
  | i + 1 =>
    let m2 := v32_rows stride above dst m i
    let m3 := vst2q_run m2 (dst + i * stride)
      (fun j => above (2 * j)) (fun j => above (2 * j + 1))
    vst2q_run m3 (dst + i * stride + 16)
      (fun j => above (16 + 2 * j)) (fun j => above (16 + 2 * j + 1))

/-- `vpx_highbd_v_predictor_32x32_neon` acting on destination memory `m`. -/
def vpx_highbd_v_predictor_32x32_run (m : Nat → Nat) (dst stride : Nat)
    (above : Nat → Nat) : Nat → Nat :=
  v32_rows stride above dst m 32

-- ===========================================================================
-- NEON shuffle combinators on 8-lane vectors (a vector is a lane function)
-- ===========================================================================

/-- `vextq_u16(a, b, n)`: lanes n..7 of `a` followed by lanes 0..n-1 of `b`. -/
def vext8 (a b : Nat → Nat) (n : Nat) : Nat → Nat :=
  fun j => if j + n < 8 then a (j + n) else b (j + n - 8)

/-- `vrev64q_u16`: reverse the lanes within each 64-bit half. -/
def vrev64q (a : Nat → Nat) : Nat → Nat :=
  fun j => if j < 4 then a (3 - j) else a (11 - j)

/-- `vuzpq_u16(a, b).val[0]`: the even-indexed lanes of `a` then of `b`. -/
def vuzpq_val0 (a b : Nat → Nat) : Nat → Nat :=
  fun j => if j < 4 then a (2 * j) else b (2 * (j - 4))

/-- `vuzpq_u16(a, b).val[1]`: the odd-indexed lanes of `a` then of `b`. -/
def vuzpq_val1 (a b : Nat → Nat) : Nat → Nat :=
  fun j => if j < 4 then a (2 * j + 1) else b (2 * (j - 4) + 1)

/-- Two 8-lane vectors stored back to back (`vst1q` at +0 and +8) as one
16-sample row. -/
def cat8 (a b : Nat → Nat) : Nat → Nat :=
  fun c => if c < 8 then a c else b (c - 8)

/-- Four 8-lane vectors stored back to back (`vst1q` at +0, +8, +16, +24) as
one 32-sample row. -/
def cat32 (a b c d : Nat → Nat) : Nat → Nat :=
  fun x => if x < 8 then a x
    else if x < 16 then b (x - 8)
    else if x < 24 then c (x - 16)
    else d (x - 24)

/-- The samples laid down by `vst2q_u16` of two deinterleaved half-vectors:
lane j of `v0` at even offsets, lane j of `v1` at odd offsets. -/
def vst2q_val (v0 v1 : Nat → Nat) : Nat → Nat :=
  fun c => if c % 2 = 0 then v0 (c / 2) else v1 (c / 2)

-- ===========================================================================
-- Store sequences: every intra kernel writes rows of consecutive samples
-- ===========================================================================

/-- One vector store: `len` consecutive samples `val 0 .. val (len-1)` at
`base`. -/
structure VecStore where
  base : Nat
  len : Nat
  val : Nat → Nat

/-- Execute a sequence of vector stores on a destination memory. -/
def runStores (m : Nat → Nat) : List VecStore → (Nat → Nat)
  | [] => m
  | s :: rest => runStores (storeN m s.base s.val s.len) rest

/-- The store sequence of a kernel that writes `H` rows of `W` consecutive
samples, row r at `dst + r * stride` with values `v r`.  (A row the C code
emits as several adjacent `vst1q`/`vst2q` is one `VecStore` here — same
addresses, same samples; and a kernel that emits its rows bottom-up, as the
D135 32x32 loop does, yields the same memory because distinct rows never
alias at any stride.) -/
def gridStores (dst stride W : Nat) (v : Nat → Nat → Nat) : Nat → List VecStore
  | 0 => []
  | h + 1 => gridStores dst stride W v h ++ [⟨dst + h * stride, W, v h⟩]

/-- The side-effect contract of an intra kernel writing an `H x W` block:
every destination sample outside the rectangle at the given stride is
unchanged, and every in-rectangle sample is overwritten — its final value is
independent of the destination's prior contents. -/
def WritesExactly (run : (Nat → Nat) → Nat → Nat → (Nat → Nat)) (H W : Nat) : Prop :=
  (∀ (m : Nat → Nat) (dst stride a : Nat),
    (∀ r, r < H → ∀ c, c < W → a ≠ dst + r * stride + c) →
    run m dst stride a = m a) ∧
  (∀ (m m' : Nat → Nat) (dst stride r c : Nat), W ≤ stride → r < H → c < W →
    run m dst stride (dst + r * stride + c) =
      run m' dst stride (dst + r * stride + c))

-- ===========================================================================
-- The remaining intra kernels as store sequences
-- ===========================================================================

/-- `dc_sum_4`: two `vpadd_u16` reductions of one 4-lane border vector. -/
def dc_sum_4 (ref : Nat → Nat) : Nat :=
  u16 (u16 (ref 0 + ref 1) + u16 (ref 2 + ref 3))

/-- `dc_sum_8`: low+high halves then two `vpadd_u16` reductions. -/
def dc_sum_8 (ref : Nat → Nat) : Nat :=
  let s : Nat → Nat := fun j => u16 (ref j + ref (j + 4))
  u16 (u16 (s 0 + s 1) + u16 (s 2 + s 3))

/-- `dc_sum_16`: `vld2q` pair add, low+high, two `vpadd_u16` reductions. -/
def dc_sum_16 (ref : Nat → Nat) : Nat :=
  let p : Nat → Nat := fun j => u16 (ref (2 * j) + ref (2 * j + 1))
  let s : Nat → Nat := fun j => u16 (p j + p (j + 4))
  u16 (u16 (s 0 + s 1) + u16 (s 2 + s 3))

/-- `dc_sum_32`: `vld4q` adds, low+high, one `vpadd_u16`, then `vpaddl_u16`
widens so the final add does not truncate. -/
def dc_sum_32 (ref : Nat → Nat) : Nat :=
  let q : Nat → Nat → Nat := fun k j => ref (4 * j + k)
  let p2 : Nat → Nat := fun j => u16 (u16 (q 0 j + q 1 j) + u16 (q 2 j + q 3 j))
  let s : Nat → Nat := fun j => u16 (p2 j + p2 (j + 4))
  u16 (s 0 + s 1) + u16 (s 2 + s 3)

/-- `vpx_highbd_dc_left_predictor_4x4_neon`: `(dc_sum_4(left) + 2) >> 2`
duplicated over the block by `dc_store_4x4`. -/
def vpx_highbd_dc_left_predictor_4x4_run (m : Nat → Nat) (dst stride : Nat)
    (left : Nat → Nat) : Nat → Nat :=
  runStores m (gridStores dst stride 4 (fun _ _ => (dc_sum_4 left + 2) / 4) 4)

/-- `vpx_highbd_dc_top_predictor_4x4_neon`. -/
def vpx_highbd_dc_top_predictor_4x4_run (m : Nat → Nat) (dst stride : Nat)
    (above : Nat → Nat) : Nat → Nat :=
  runStores m (gridStores dst stride 4 (fun _ _ => (dc_sum_4 above + 2) / 4) 4)

/-- `vpx_highbd_dc_128_predictor_4x4_neon`: `1 << (bd - 1)` everywhere. -/
def vpx_highbd_dc_128_predictor_4x4_run (m : Nat → Nat) (dst stride : Nat)
    (bd : Nat) : Nat → Nat :=
  runStores m (gridStores dst stride 4 (fun _ _ => 2 ^ (bd - 1)) 4)

/-- `vpx_highbd_dc_predictor_8x8_neon` as its `dc_store_8x8` sequence. -/
def vpx_highbd_dc_predictor_8x8_run (m : Nat → Nat) (dst stride : Nat)
    (above left : Nat → Nat) : Nat → Nat :=
  runStores m (gridStores dst stride 8
    (fun r c => vpx_highbd_dc_predictor_8x8 above left r c) 8)

/-- `vpx_highbd_dc_left_predictor_8x8_neon`: `(dc_sum_8(left) + 4) >> 3`. -/
def vpx_highbd_dc_left_predictor_8x8_run (m : Nat → Nat) (dst stride : Nat)
    (left : Nat → Nat) : Nat → Nat :=
  runStores m (gridStores dst stride 8 (fun _ _ => (dc_sum_8 left + 4) / 8) 8)

/-- `vpx_highbd_dc_top_predictor_8x8_neon`. -/
def vpx_highbd_dc_top_predictor_8x8_run (m : Nat → Nat) (dst stride : Nat)
    (above : Nat → Nat) : Nat → Nat :=
  runStores m (gridStores dst stride 8 (fun _ _ => (dc_sum_8 above + 4) / 8) 8)

/-- `vpx_highbd_dc_128_predictor_8x8_neon`. -/
def vpx_highbd_dc_128_predictor_8x8_run (m : Nat → Nat) (dst stride : Nat)
    (bd : Nat) : Nat → Nat :=
  runStores m (gridStores dst stride 8 (fun _ _ => 2 ^ (bd - 1)) 8)

/-- `vpx_highbd_dc_predictor_16x16_neon` as its `dc_store_16x16` sequence
(each row is two adjacent `vst2q_u16` of the duplicated dc lane). -/
def vpx_highbd_dc_predictor_16x16_run (m : Nat → Nat) (dst stride : Nat)
    (above left : Nat → Nat) : Nat → Nat :=
  runStores m (gridStores dst stride 16
    (fun r c => vpx_highbd_dc_predictor_16x16 above left r c) 16)

/-- `vpx_highbd_dc_left_predictor_16x16_neon`: `(dc_sum_16(left) + 8) >> 4`. -/
def vpx_highbd_dc_left_predictor_16x16_run (m : Nat → Nat) (dst stride : Nat)
    (left : Nat → Nat) : Nat → Nat :=
  runStores m (gridStores dst stride 16 (fun _ _ => (dc_sum_16 left + 8) / 16) 16)

/-- `vpx_highbd_dc_top_predictor_16x16_neon`. -/
def vpx_highbd_dc_top_predictor_16x16_run (m : Nat → Nat) (dst stride : Nat)
    (above : Nat → Nat) : Nat → Nat :=
  runStores m (gridStores dst stride 16 (fun _ _ => (dc_sum_16 above + 8) / 16) 16)

/-- `vpx_highbd_dc_128_predictor_16x16_neon`. -/
def vpx_highbd_dc_128_predictor_16x16_run (m : Nat → Nat) (dst stride : Nat)
    (bd : Nat) : Nat → Nat :=
  runStores m (gridStores dst stride 16 (fun _ _ => 2 ^ (bd - 1)) 16)

/-- `vpx_highbd_dc_predictor_32x32_neon` as its `dc_store_32x32` sequence. -/
def vpx_highbd_dc_predictor_32x32_run (m : Nat → Nat) (dst stride : Nat)
    (above left : Nat → Nat) : Nat → Nat :=
  runStores m (gridStores dst stride 32
    (fun r c => vpx_highbd_dc_predictor_32x32 above left r c) 32)

/-- `vpx_highbd_dc_left_predictor_32x32_neon`:
`vrshr_n_u32(dc_sum_32(left), 5)`. -/
def vpx_highbd_dc_left_predictor_32x32_run (m : Nat → Nat) (dst stride : Nat)
    (left : Nat → Nat) : Nat → Nat :=
  runStores m (gridStores dst stride 32 (fun _ _ => (dc_sum_32 left + 16) / 32) 32)

/-- `vpx_highbd_dc_top_predictor_32x32_neon`. -/
def vpx_highbd_dc_top_predictor_32x32_run (m : Nat → Nat) (dst stride : Nat)
    (above : Nat → Nat) : Nat → Nat :=
  runStores m (gridStores dst stride 32 (fun _ _ => (dc_sum_32 above + 16) / 32) 32)

/-- `vpx_highbd_dc_128_predictor_32x32_neon`. -/
def vpx_highbd_dc_128_predictor_32x32_run (m : Nat → Nat) (dst stride : Nat)
    (bd : Nat) : Nat → Nat :=
  runStores m (gridStores dst stride 32 (fun _ _ => 2 ^ (bd - 1)) 32)

/-- `vpx_highbd_v_predictor_4x4_neon`: the above row `vst1`-ed into every
row. -/
def vpx_highbd_v_predictor_4x4_run (m : Nat → Nat) (dst stride : Nat)
    (above : Nat → Nat) : Nat → Nat :=
  runStores m (gridStores dst stride 4
    (fun r c => vpx_highbd_v_predictor_4x4 above r c) 4)

/-- `vpx_highbd_v_predictor_8x8_neon`. -/
def vpx_highbd_v_predictor_8x8_run (m : Nat → Nat) (dst stride : Nat)
    (above : Nat → Nat) : Nat → Nat :=
  runStores m (gridStores dst stride 8
    (fun r c => vpx_highbd_v_predictor_8x8 above r c) 8)

/-- `vpx_highbd_v_predictor_16x16_neon`: each row is `vst2q` of the `vld2q`
deinterleave of the above row, i.e. sample `above c` back at column c. -/
def vpx_highbd_v_predictor_16x16_run (m : Nat → Nat) (dst stride : Nat)
    (above : Nat → Nat) : Nat → Nat :=
  runStores m (gridStores dst stride 16
    (fun _r => vst2q_val (fun j => above (2 * j)) (fun j => above (2 * j + 1))) 16)

/-- `vpx_highbd_h_predictor_4x4_neon`: row r is `left[r]` duplicated. -/
def vpx_highbd_h_predictor_4x4_run (m : Nat → Nat) (dst stride : Nat)
    (left : Nat → Nat) : Nat → Nat :=
  runStores m (gridStores dst stride 4
    (fun r c => vpx_highbd_h_predictor_4x4 left r c) 4)

/-- `vpx_highbd_h_predictor_8x8_neon`. -/
def vpx_highbd_h_predictor_8x8_run (m : Nat → Nat) (dst stride : Nat)
    (left : Nat → Nat) : Nat → Nat :=
  runStores m (gridStores dst stride 8
    (fun r c => vpx_highbd_h_predictor_8x8 left r c) 8)

/-- `vpx_highbd_h_predictor_16x16_neon` (`h_store_16`: two adjacent `vst1q`
of the duplicated lane per row). -/
def vpx_highbd_h_predictor_16x16_run (m : Nat → Nat) (dst stride : Nat)
    (left : Nat → Nat) : Nat → Nat :=
  runStores m (gridStores dst stride 16
    (fun r c => vpx_highbd_h_predictor_16x16 left r c) 16)

/-- `vpx_highbd_h_predictor_32x32_neon` (`h_store_32`: four adjacent
`vst1q`). -/
def vpx_highbd_h_predictor_32x32_run (m : Nat → Nat) (dst stride : Nat)
    (left : Nat → Nat) : Nat → Nat :=
  runStores m (gridStores dst stride 32
    (fun r c => vpx_highbd_h_predictor_32x32 left r c) 32)

/-- `vpx_highbd_tm_predictor_4x4_neon` as a store sequence; each cell value
is the `tm_cell` lane computation. -/
def vpx_highbd_tm_predictor_4x4_run (m : Nat → Nat) (dst stride : Nat)
    (bd : Nat) (above : Nat → Nat) (tl : Nat) (left : Nat → Nat) : Nat → Nat :=
  runStores m (gridStores dst stride 4
    (fun r c => vpx_highbd_tm_predictor_4x4 bd above tl left r c) 4)

/-- `vpx_highbd_tm_predictor_8x8_neon` (rows via `tm_8_kernel`). -/
def vpx_highbd_tm_predictor_8x8_run (m : Nat → Nat) (dst stride : Nat)
    (bd : Nat) (above : Nat → Nat) (tl : Nat) (left : Nat → Nat) : Nat → Nat :=
  runStores m (gridStores dst stride 8
    (fun r c => vpx_highbd_tm_predictor_8x8 bd above tl left r c) 8)

/-- `vpx_highbd_tm_predictor_16x16_neon` (rows via `tm_16_kernel`, two
adjacent `vst1q` per row). -/
def vpx_highbd_tm_predictor_16x16_run (m : Nat → Nat) (dst stride : Nat)
    (bd : Nat) (above : Nat → Nat) (tl : Nat) (left : Nat → Nat) : Nat → Nat :=
  runStores m (gridStores dst stride 16
    (fun r c => vpx_highbd_tm_predictor_16x16 bd above tl left r c) 16)

/-- `vpx_highbd_tm_predictor_32x32_neon` (rows via `tm_32_kernel`, four
adjacent `vst1q` per row). -/
def vpx_highbd_tm_predictor_32x32_run (m : Nat → Nat) (dst stride : Nat)
    (bd : Nat) (above : Nat → Nat) (tl : Nat) (left : Nat → Nat) : Nat → Nat :=
  runStores m (gridStores dst stride 32
    (fun r c => vpx_highbd_tm_predictor_32x32 bd above tl left r c) 32)

/-- `vpx_highbd_d45_predictor_8x8_neon`: row 0 is the `avg` vector; rows
1..6 shift it left by one lane per row via `d45_store_8` (`vextq` pulls
`above_right = above[7]` in at the end); row 7 is `above_right`
throughout. -/
def vpx_highbd_d45_predictor_8x8_run (m : Nat → Nat) (dst stride : Nat)
    (above : Nat → Nat) : Nat → Nat :=
  runStores m (gridStores dst stride 8
    (fun r c => if r = 7 then above 7
      else if c + r < 8 then d45_lane above (c + r) else above 7) 8)

/-- `vpx_highbd_d45_predictor_16x16_neon` (`d45_store_16` shifts the
two-vector row pair as one 16-lane row; `above_right = above[15]`). -/
def vpx_highbd_d45_predictor_16x16_run (m : Nat → Nat) (dst stride : Nat)
    (above : Nat → Nat) : Nat → Nat :=
  runStores m (gridStores dst stride 16
    (fun r c => if r = 15 then above 15
      else if c + r < 16 then d45_lane above (c + r) else above 15) 16)

/-- `vpx_highbd_d45_predictor_32x32_neon` (the loop shifts the four-vector
row quadruple as one 32-lane row 30 times; `above_right = above[31]`). -/
def vpx_highbd_d45_predictor_32x32_run (m : Nat → Nat) (dst stride : Nat)
    (above : Nat → Nat) : Nat → Nat :=
  runStores m (gridStores dst stride 32
    (fun r c => if r = 31 then above 31
      else if c + r < 32 then d45_lane above (c + r) else above 31) 32)

/-- `vpx_highbd_d117_predictor_4x4_neon` as a store sequence of its four
rows. -/
def vpx_highbd_d117_predictor_4x4_run (m : Nat → Nat) (dst stride : Nat)
    (above : Nat → Nat) (tl : Nat) (left : Nat → Nat) : Nat → Nat :=
  runStores m (gridStores dst stride 4
    (fun r c => vpx_highbd_d117_predictor_4x4 above tl left r c) 4)

/-- `vpx_highbd_d117_predictor_8x8_neon`: rows 0/1 are `d0`/`d1`; row 2k
(resp. 2k+1) is `vextq(col0_even, d0, 8-k)` (resp. with `col0_odd`, `d1`);
`vext8 x y 8 = y` makes rows 0 and 1 the k = 0 case of the same scheme. -/
def vpx_highbd_d117_predictor_8x8_run (m : Nat → Nat) (dst stride : Nat)
    (above : Nat → Nat) (tl : Nat) (left : Nat → Nat) : Nat → Nat :=
  let az : Nat → Nat := fun i => if i = 0 then tl else above (i - 1)
  let l0az : Nat → Nat := fun i =>
    if i = 0 then left 0 else if i = 1 then tl else above (i - 2)
  let azl0 : Nat → Nat := fun i => if i = 0 then tl else left (i - 1)
  let l1 : Nat → Nat := fun i => if i = 7 then left 0 else left (i + 1)
  let d0 : Nat → Nat := fun i => vrhadd (az i) (above i)
  let d1 : Nat → Nat := fun i => vrhadd (vhadd (l0az i) (above i)) (az i)
  let col0 : Nat → Nat := fun i => vrhadd (vhadd (azl0 i) (l1 i)) (left i)
  let col0r := vrev64q (vext8 col0 col0 4)
  let col0_even := vuzpq_val1 col0r col0r
  let col0_odd := vuzpq_val0 col0r col0r
  runStores m (gridStores dst stride 8
    (fun r => if r % 2 = 0 then vext8 col0_even d0 (8 - r / 2)
      else vext8 col0_odd d1 (8 - r / 2)) 8)

/-- `vpx_highbd_d117_predictor_16x16_neon`: same scheme with two-vector
rows; `d0 = (d0_lo, d0_hi)`, `d1 = (d1_lo, d1_hi)`, `col0` reversed across
its two halves. -/
def vpx_highbd_d117_predictor_16x16_run (m : Nat → Nat) (dst stride : Nat)
    (above : Nat → Nat) (tl : Nat) (left : Nat → Nat) : Nat → Nat :=
  let az : Nat → Nat := fun i => if i = 0 then tl else above (i - 1)
  let l0az : Nat → Nat := fun i =>
    if i = 0 then left 0 else if i = 1 then tl else above (i - 2)
  let azl0 : Nat → Nat := fun i => if i = 0 then tl else left (i - 1)
  let l1 : Nat → Nat := fun i => left (i + 1)
  let l9 : Nat → Nat := fun i => if i = 7 then left 8 else left (9 + i)
  let d0_lo : Nat → Nat := fun i => vrhadd (az i) (above i)
  let d0_hi : Nat → Nat := fun i => vrhadd (above (7 + i)) (above (8 + i))
  let d1_lo : Nat → Nat := fun i => vrhadd (vhadd (l0az i) (above i)) (az i)
  let d1_hi : Nat → Nat := fun i =>
    vrhadd (vhadd (above (6 + i)) (above (8 + i))) (above (7 + i))
  let col0_lo : Nat → Nat := fun i => vrhadd (vhadd (azl0 i) (l1 i)) (left i)
  let col0_hi : Nat → Nat := fun i =>
    vrhadd (vhadd (left (7 + i)) (l9 i)) (left (8 + i))
  let col0_lor := vrev64q (vext8 col0_lo col0_lo 4)
  let col0_hir := vrev64q (vext8 col0_hi col0_hi 4)
  let col0_even := vuzpq_val1 col0_hir col0_lor
  let col0_odd := vuzpq_val0 col0_hir col0_lor
  runStores m (gridStores dst stride 16
    (fun r => if r % 2 = 0 then
        cat8 (vext8 col0_even d0_lo (8 - r / 2)) (vext8 d0_lo d0_hi (8 - r / 2))
      else
        cat8 (vext8 col0_odd d1_lo (8 - r / 2)) (vext8 d1_lo d1_hi (8 - r / 2))) 16)

/-- `vpx_highbd_d117_predictor_32x32_neon`: four-vector rows; for rows
2k/2k+1 with k ≤ 8 the window slides over `[col0_even[1], d0[0..3]]` with
shift 8-k, and for k ≥ 8 over `[col0_even[0..1], d0[0..2]]` with shift 16-k
(both give the same row at k = 8). -/
def vpx_highbd_d117_predictor_32x32_run (m : Nat → Nat) (dst stride : Nat)
    (above : Nat → Nat) (tl : Nat) (left : Nat → Nat) : Nat → Nat :=
  let az : Nat → Nat := fun i => if i = 0 then tl else above (i - 1)
  let l0az : Nat → Nat := fun i =>
    if i = 0 then left 0 else if i = 1 then tl else above (i - 2)
  let azl0 : Nat → Nat := fun i => if i = 0 then tl else left (i - 1)
  let l25 : Nat → Nat := fun i => if i = 7 then left 24 else left (25 + i)
  let d00 : Nat → Nat := fun i => vrhadd (az i) (above i)
  let d01 : Nat → Nat := fun i => vrhadd (above (7 + i)) (above (8 + i))
  let d02 : Nat → Nat := fun i => vrhadd (above (15 + i)) (above (16 + i))
  let d03 : Nat → Nat := fun i => vrhadd (above (23 + i)) (above (24 + i))
  let d10 : Nat → Nat := fun i => vrhadd (vhadd (l0az i) (above i)) (az i)
  let d11 : Nat → Nat := fun i =>
    vrhadd (vhadd (above (6 + i)) (above (8 + i))) (above (7 + i))
  let d12 : Nat → Nat := fun i =>
    vrhadd (vhadd (above (14 + i)) (above (16 + i))) (above (15 + i))
  let d13 : Nat → Nat := fun i =>
    vrhadd (vhadd (above (22 + i)) (above (24 + i))) (above (23 + i))
  let c00 : Nat → Nat := fun i =>
    vrhadd (vhadd (azl0 i) (left (i + 1))) (left i)
  let c01 : Nat → Nat := fun i =>
    vrhadd (vhadd (left (7 + i)) (left (9 + i))) (left (8 + i))
  let c02 : Nat → Nat := fun i =>
    vrhadd (vhadd (left (15 + i)) (left (17 + i))) (left (16 + i))
  let c03 : Nat → Nat := fun i =>
    vrhadd (vhadd (left (23 + i)) (l25 i)) (left (24 + i))
  let c00r := vrev64q (vext8 c00 c00 4)
  let c01r := vrev64q (vext8 c01 c01 4)
  let c02r := vrev64q (vext8 c02 c02 4)
  let c03r := vrev64q (vext8 c03 c03 4)
  let ce1 := vuzpq_val1 c01r c00r
  let ce0 := vuzpq_val1 c03r c02r
  let co1 := vuzpq_val0 c01r c00r
  let co0 := vuzpq_val0 c03r c02r
  runStores m (gridStores dst stride 32
    (fun r =>
      let k := r / 2
      if r % 2 = 0 then
        if k < 8 then
          cat32 (vext8 ce1 d00 (8 - k)) (vext8 d00 d01 (8 - k))
            (vext8 d01 d02 (8 - k)) (vext8 d02 d03 (8 - k))
        else
          cat32 (vext8 ce0 ce1 (16 - k)) (vext8 ce1 d00 (16 - k))
            (vext8 d00 d01 (16 - k)) (vext8 d01 d02 (16 - k))
      else
        if k < 8 then
          cat32 (vext8 co1 d10 (8 - k)) (vext8 d10 d11 (8 - k))
            (vext8 d11 d12 (8 - k)) (vext8 d12 d13 (8 - k))
        else
          cat32 (vext8 co0 co1 (16 - k)) (vext8 co1 d10 (16 - k))
            (vext8 d10 d11 (16 - k)) (vext8 d11 d12 (16 - k))) 32)

/-- `vpx_highbd_d135_predictor_4x4_neon` as a store sequence of its four
rows. -/
def vpx_highbd_d135_predictor_4x4_run (m : Nat → Nat) (dst stride : Nat)
    (above : Nat → Nat) (tl : Nat) (left : Nat → Nat) : Nat → Nat :=
  runStores m (gridStores dst stride 4
    (fun r c => vpx_highbd_d135_predictor_4x4 above tl left r c) 4)

/-- The D135 8x8 walk `[left[7], ..., left[0], above[-1], above[0], ...]`
(the reversed left column, the corner, then the above row). -/
def d135_walk_8 (above : Nat → Nat) (tl : Nat) (left : Nat → Nat) (j : Nat) : Nat :=
  if j < 8 then left (7 - j) else if j = 8 then tl else above (j - 9)

/-- Lane i of the D135 8x8 three-tap vector (`row_0 ++ row_1`). -/
def d135_lane_8 (above : Nat → Nat) (tl : Nat) (left : Nat → Nat) (i : Nat) : Nat :=
  vrhadd (vhadd (d135_walk_8 above tl left i) (d135_walk_8 above tl left (i + 2)))
    (d135_walk_8 above tl left (i + 1))

/-- `vpx_highbd_d135_predictor_8x8_neon`: row r is
`vextq(row_0, row_1, 7 - r)`, i.e. lanes (7-r)..(14-r) of the walk's
three-tap vector (row 7 is `row_0` itself, the shift-0 case). -/
def vpx_highbd_d135_predictor_8x8_run (m : Nat → Nat) (dst stride : Nat)
    (above : Nat → Nat) (tl : Nat) (left : Nat → Nat) : Nat → Nat :=
  runStores m (gridStores dst stride 8
    (fun r c => d135_lane_8 above tl left (7 - r + c)) 8)

/-- The D135 16x16 walk: reversed left column (16), corner, above row. -/
def d135_walk_16 (above : Nat → Nat) (tl : Nat) (left : Nat → Nat) (j : Nat) : Nat :=
  if j < 16 then left (15 - j) else if j = 16 then tl else above (j - 17)

/-- Lane i of the D135 16x16 three-tap vector (`row_0 ++ .. ++ row_3`). -/
def d135_lane_16 (above : Nat → Nat) (tl : Nat) (left : Nat → Nat) (i : Nat) : Nat :=
  vrhadd (vhadd (d135_walk_16 above tl left i) (d135_walk_16 above tl left (i + 2)))
    (d135_walk_16 above tl left (i + 1))

/-- `vpx_highbd_d135_predictor_16x16_neon`: row r is the two-vector
`d135_store_16` of `vextq(row_1, row_2, 7-r)`/`vextq(row_2, row_3, 7-r)`
for r < 8 and `vextq(row_0, row_1, 15-r)`/`vextq(row_1, row_2, 15-r)` for
r ≥ 8 — lanes (15-r)..(30-r) of the three-tap vector either way. -/
def vpx_highbd_d135_predictor_16x16_run (m : Nat → Nat) (dst stride : Nat)
    (above : Nat → Nat) (tl : Nat) (left : Nat → Nat) : Nat → Nat :=
  runStores m (gridStores dst stride 16
    (fun r c => d135_lane_16 above tl left (15 - r + c)) 16)

/-- The D135 32x32 walk: reversed left column (32), corner, above row. -/
def d135_walk_32 (above : Nat → Nat) (tl : Nat) (left : Nat → Nat) (j : Nat) : Nat :=
  if j < 32 then left (31 - j) else if j = 32 then tl else above (j - 33)

/-- Lane i of the D135 32x32 three-tap vector (`row_0 ++ .. ++ row_7`). -/
def d135_lane_32 (above : Nat → Nat) (tl : Nat) (left : Nat → Nat) (i : Nat) : Nat :=
  vrhadd (vhadd (d135_walk_32 above tl left i) (d135_walk_32 above tl left (i + 2)))
    (d135_walk_32 above tl left (i + 1))

/-- `vpx_highbd_d135_predictor_32x32_neon`: the loop walks from row 31 up to
row 0, each iteration storing the current four-vector window (lanes
(31-r)..(62-r) of the three-tap vector) and shifting it by one lane — the
rotating `row_4` hands its lanes over one per shift, and the window refills
from `row_5..row_7` every eight rows. -/
def vpx_highbd_d135_predictor_32x32_run (m : Nat → Nat) (dst stride : Nat)
    (above : Nat → Nat) (tl : Nat) (left : Nat → Nat) : Nat → Nat :=
  runStores m (gridStores dst stride 32
    (fun r c => d135_lane_32 above tl left (31 - r + c)) 32)

-- ===========================================================================
-- Concrete borders used to instantiate the theorems
-- ===========================================================================

/-- The spec's worked 4x4 example above row `[10, 20, 30, 40, 50, 60, 70, 80]`. -/
def exA (i : Nat) : Nat := 10 * (i + 1)

/-- The spec's worked 4x4 example left column `[10, 5, 15, 25]`. -/
def exL (i : Nat) : Nat := if i = 0 then 10 else if i = 1 then 5 else if i = 2 then 15 else 25

/-- A left column that is all zero except `left[3] = 1`. -/
def cexL (i : Nat) : Nat := if i = 3 then 1 else 0

/-- The materialized compound prediction of the spec: a tightly packed
(stride = width) buffer whose sample at packed address `r*w + c` is the
round-half-up average of `reference[r*rs + c]` and `second_predictor[r*w + c]`. -/
def avgBuf (ref sec : Nat → Nat) (rs w : Nat) : Nat → Nat :=
  fun a => (ref ((a / w) * rs + a % w) + sec a + 1) / 2

-- ===========================================================================
-- Theorems
-- ===========================================================================

/-- Early-exit invariant of the shared row loop: as long as the grand total
fits an `unsigned int`, the loop returns the exact total when it stays within
`maxSad`, returns something above `maxSad` when the total exceeds it, and
never exceeds the total. -/
theorem sadRows_spec (rowCost : Nat → Nat) (maxSad : Nat) :
    ∀ (rows : List Nat) (acc : Nat),
      acc + (rows.map rowCost).sum ≤ UMAX →
      (acc + (rows.map rowCost).sum ≤ maxSad →
        sadRows rowCost maxSad rows acc = acc + (rows.map rowCost).sum) ∧
      (maxSad < acc + (rows.map rowCost).sum →
        maxSad < sadRows rowCost maxSad rows acc) ∧
      sadRows rowCost maxSad rows acc ≤ acc + (rows.map rowCost).sum := by
  intro rows
  induction rows with
  | nil => intro acc _; simp [sadRows]
  | cons r rest ih =>
    intro acc hb
    simp only [List.map_cons, List.sum_cons] at hb ⊢
    have hrest : 0 ≤ (rest.map rowCost).sum := Nat.zero_le _
    have hfit : acc + rowCost r < 4294967296 := by unfold UMAX at hb; omega
    have hu : u32 (acc + rowCost r) = acc + rowCost r := Nat.mod_eq_of_lt hfit
    rw [sadRows]
    simp only [hu]
    by_cases hcase : maxSad < acc + rowCost r
    · simp only [if_pos hcase]
      refine ⟨fun hle => absurd hle (by omega), fun _ => hcase, by omega⟩
    · simp only [if_neg hcase]
      have := ih (acc + rowCost r) (by omega)
      refine ⟨fun hle => ?_, fun hlt => ?_, by omega⟩
      · rw [this.1 (by omega)]; omega
      · exact this.2.1 (by omega)

/-- C1: whenever the true SAD fits an `unsigned int`, the bounded
single-reference SAD (`SADTestBase::ReferenceSAD`) returns exactly the true
sum of absolute differences when that is at most `max_cost`; when the true
SAD exceeds `max_cost` it returns a value that is at least `max_cost`; and it
never returns more than the true SAD (it fabricates nothing for unscanned
rows). -/
theorem sad_bounded_contract (src ref : Nat → Nat) (ss rs w h maxSad : Nat)
    (hfit : trueSAD src ref ss rs w h ≤ UMAX) :
    (trueSAD src ref ss rs w h ≤ maxSad →
      ReferenceSAD src ref ss rs w h maxSad = trueSAD src ref ss rs w h) ∧
    (maxSad < trueSAD src ref ss rs w h →
      maxSad ≤ ReferenceSAD src ref ss rs w h maxSad) ∧
    ReferenceSAD src ref ss rs w h maxSad ≤ trueSAD src ref ss rs w h := by
  have hmain := sadRows_spec (sadRow src ref ss rs w) maxSad (List.range h) 0
    (by simpa [trueSAD] using hfit)
  unfold ReferenceSAD trueSAD
  simp only [Nat.zero_add] at hmain
  exact ⟨hmain.1, fun hlt => Nat.le_of_lt (hmain.2.1 hlt), hmain.2.2⟩

/-- C1 witness: a concrete 2x2 block where the bound is not hit, evaluated
through the contract. -/
theorem sad_bounded_contract_witness :
    ReferenceSAD (fun a => a % 7) (fun _ => 0) 4 4 2 2 100 =
      trueSAD (fun a => a % 7) (fun _ => 0) 4 4 2 2 :=
  (sad_bounded_contract (fun a => a % 7) (fun _ => 0) 4 4 2 2 100
    (by decide)).1 (by decide)

/-- C5: whenever each of the four true SADs fits an `unsigned int` (true for
every supported geometry with 16-bit samples), the batched four-reference SAD
equals, element-wise, four independent unbounded single-reference SADs on the
same data: the `UINT_MAX` bound can never trigger an early exit. -/
theorem sad_x4_equiv (src : Nat → Nat) (ss : Nat) (refs : Fin 4 → Nat → Nat)
    (rs w h : Nat)
    (hfit : ∀ i : Fin 4, trueSAD src (refs i) ss rs w h ≤ UMAX) :
    ∀ i : Fin 4, sadX4 src ss refs rs w h i = trueSAD src (refs i) ss rs w h := by
  intro i
  have hmain := sadRows_spec (sadRow src (refs i) ss rs w) UMAX (List.range h) 0
    (by simpa [trueSAD] using hfit i)
  have h1 := hmain.1 (by simpa [trueSAD] using hfit i)
  simpa [sadX4, ReferenceSAD, trueSAD] using h1

/-- C5 witness: concrete 2x2 data for four concrete references. -/
theorem sad_x4_equiv_witness :
    sadX4 (fun a => a % 9) 4 (fun i a => (i : Nat) * a % 5) 4 2 2 0 =
      trueSAD (fun a => a % 9) (fun a => 0 * a % 5) 4 4 2 2 :=
  sad_x4_equiv (fun a => a % 9) 4 (fun i a => (i : Nat) * a % 5) 4 2 2
    (by decide) 0

/-- C6: for 16-bit samples, the compound-average SAD
(`SADTestBase::ReferenceSADavg`) with a bound large enough not to trigger the
early exit equals the plain SAD of the source against the materialized
tightly packed buffer of round-half-up averages
`(reference + second_predictor + 1) >> 1`, over all `w x h` positions. -/
theorem sad_avg_equiv (src ref sec : Nat → Nat) (ss rs w h maxSad : Nat)
    (hw : 0 < w)
    (href : ∀ a, ref a < 65536) (hsec : ∀ a, sec a < 65536)
    (hmax : maxSad ≤ UMAX)
    (hle : trueSAD src (avgBuf ref sec rs w) ss w w h ≤ maxSad) :
    ReferenceSADavg src ref sec ss rs w h maxSad =
      trueSAD src (avgBuf ref sec rs w) ss w w h := by
  have hrow : ∀ r, sadAvgRow src ref sec ss rs w r =
      sadRow src (avgBuf ref sec rs w) ss w w r := by
    intro r
    unfold sadAvgRow sadRow
    congr 1
    apply List.map_congr_left
    intro c hc
    have hc' : c < w := List.mem_range.mp hc
    have hdiv : (r * w + c) / w = r := by
      rw [Nat.mul_comm r w, Nat.mul_add_div hw, Nat.div_eq_of_lt hc', Nat.add_zero]
    have hmod : (r * w + c) % w = c := by
      rw [Nat.mul_comm r w, Nat.mul_add_mod, Nat.mod_eq_of_lt hc']
    have hsmall : (ref (r * rs + c) + sec (r * w + c) + 1) / 2 < 65536 := by
      have h1 := href (r * rs + c)
      have h2 := hsec (r * w + c)
      omega
    unfold compPred avgBuf u16
    rw [hdiv, hmod, Nat.mod_eq_of_lt hsmall]
  have hrows : (List.range h).map (sadAvgRow src ref sec ss rs w) =
      (List.range h).map (sadRow src (avgBuf ref sec rs w) ss w w) :=
    List.map_congr_left (fun r _ => hrow r)
  have hmain := sadRows_spec (sadAvgRow src ref sec ss rs w) maxSad (List.range h) 0
    (by rw [hrows]; simpa [trueSAD] using Nat.le_trans hle hmax)
  have h1 := hmain.1 (by rw [hrows]; simpa [trueSAD] using hle)
  rw [hrows] at h1
  simpa [ReferenceSADavg, trueSAD, hrows] using h1

/-- C6 witness: a concrete 2x2 block with packed second predictor. -/
theorem sad_avg_equiv_witness :
    ReferenceSADavg (fun a => a) (fun _ => 9) (fun a => a % 3) 3 5 2 2 1000 =
      trueSAD (fun a => a) (avgBuf (fun _ => 9) (fun a => a % 3) 5 2) 3 2 2 2 :=
  sad_avg_equiv (fun a => a) (fun _ => 9) (fun a => a % 3) 3 5 2 2 1000
    (by decide) (fun a => by show (9 : Nat) < 65536; norm_num)
    (fun a => by show a % 3 < 65536; omega) (by decide) (by decide)

/-- C2: for any 4x4 border of samples valid at bit depth 8, 10 or 12, the DC
predictor fills every cell with the round-half-up mean
`(A[0]+A[1]+A[2]+A[3]+L[0]+L[1]+L[2]+L[3]+4) >> 3` of the eight border
samples (no u16 lane ever truncates). -/
theorem dc_predictor_4x4_spec (above left : Nat → Nat) (bd : Nat)
    (hbd : bd = 8 ∨ bd = 10 ∨ bd = 12)
    (ha : ∀ i, i < 4 → above i ≤ 2 ^ bd - 1)
    (hl : ∀ i, i < 4 → left i ≤ 2 ^ bd - 1) :
    ∀ r c, r < 4 → c < 4 →
      vpx_highbd_dc_predictor_4x4 above left r c =
        (above 0 + above 1 + above 2 + above 3 +
          left 0 + left 1 + left 2 + left 3 + 4) / 8 := by
  intro r c _ _
  have ha0 := ha 0 (by norm_num); have ha1 := ha 1 (by norm_num)
  have ha2 := ha 2 (by norm_num); have ha3 := ha 3 (by norm_num)
  have hl0 := hl 0 (by norm_num); have hl1 := hl 1 (by norm_num)
  have hl2 := hl 2 (by norm_num); have hl3 := hl 3 (by norm_num)
  have hbd4 : (2:Nat) ^ bd - 1 ≤ 4095 := by
    rcases hbd with h | h | h <;> subst h <;> norm_num
  simp only [vpx_highbd_dc_predictor_4x4, dc_4x4_sum, u16]
  omega

/-- C2 witness: the spec's worked example above=[10,20,30,40],
left=[10,5,15,25] gives 19 in (for instance) the top-left cell. -/
theorem dc_predictor_4x4_spec_witness :
    vpx_highbd_dc_predictor_4x4 exA exL 0 0 = 19 := by
  have h := dc_predictor_4x4_spec exA exL 8 (Or.inl rfl)
    (by decide) (by decide) 0 0 (by norm_num) (by norm_num)
  rw [h]; decide

/-- The TM lane arithmetic: for samples bounded by `MX ≤ 4095` the
`int16` wrap-arounds are the identity, and min-then-saturate computes the
spec's clamp. -/
theorem tm_cell_clamp (bd : Nat) (above : Nat → Nat) (tl : Nat)
    (left : Nat → Nat) (r c : Nat) (hmx : 2 ^ bd - 1 ≤ 4095)
    (ha : above c ≤ 2 ^ bd - 1) (hl : left r ≤ 2 ^ bd - 1)
    (htl : tl ≤ 2 ^ bd - 1) :
    tm_cell bd above tl left r c =
      (max 0 (min ((above c : Int) + left r - tl) ((2:Int) ^ bd - 1))).toNat := by
  have h1 : (1:Nat) ≤ 2 ^ bd := Nat.one_le_two_pow
  have hcast : ((2:Int) ^ bd - 1) = ((2 ^ bd - 1 : Nat) : Int) := by
    push_cast [h1]; ring
  simp only [tm_cell, vqshlu0, wrap16, hcast]
  generalize hP : (2 ^ bd - 1 : Nat) = P at *
  split <;> omega

/-- C3: for every block size in {4x4, 8x8, 16x16, 32x32}, depth in {8,10,12}
and valid border samples, the TM predictor writes
`clamp(A[c] + L[r] - TL, 0, 2^bd - 1)` at every cell; the signed-16-bit
intermediates (`wrap16`) never change the value. -/
theorem tm_predictor_clamp_spec (bd : Nat) (above : Nat → Nat) (tl : Nat)
    (left : Nat → Nat) (hbd : bd = 8 ∨ bd = 10 ∨ bd = 12)
    (ha : ∀ i, i < 32 → above i ≤ 2 ^ bd - 1)
    (hl : ∀ i, i < 32 → left i ≤ 2 ^ bd - 1)
    (htl : tl ≤ 2 ^ bd - 1) :
    (∀ r c, r < 4 → c < 4 →
      vpx_highbd_tm_predictor_4x4 bd above tl left r c =
        (max 0 (min ((above c : Int) + left r - tl) ((2:Int) ^ bd - 1))).toNat) ∧
    (∀ r c, r < 8 → c < 8 →
      vpx_highbd_tm_predictor_8x8 bd above tl left r c =
        (max 0 (min ((above c : Int) + left r - tl) ((2:Int) ^ bd - 1))).toNat) ∧
    (∀ r c, r < 16 → c < 16 →
      vpx_highbd_tm_predictor_16x16 bd above tl left r c =
        (max 0 (min ((above c : Int) + left r - tl) ((2:Int) ^ bd - 1))).toNat) ∧
    (∀ r c, r < 32 → c < 32 →
      vpx_highbd_tm_predictor_32x32 bd above tl left r c =
        (max 0 (min ((above c : Int) + left r - tl) ((2:Int) ^ bd - 1))).toNat) := by
  have hmx : (2:Nat) ^ bd - 1 ≤ 4095 := by
    rcases hbd with h | h | h <;> subst h <;> norm_num
  refine ⟨fun r c hr hc => ?_, fun r c hr hc => ?_,
    fun r c hr hc => ?_, fun r c hr hc => ?_⟩ <;>
    exact tm_cell_clamp bd above tl left r c hmx
      (ha c (by omega)) (hl r (by omega)) htl

/-- C3 witness: depth 10, the worked border, cell (1,2):
clamp(30 + 5 - 10, 0, 1023) = 25. -/
theorem tm_predictor_clamp_spec_witness :
    vpx_highbd_tm_predictor_4x4 10 exA 10 exL 1 2 = 25 := by
  have h := (tm_predictor_clamp_spec 10 exA 10 exL (Or.inr (Or.inl rfl))
    (by decide) (by decide) (by decide)).1 1 2 (by norm_num) (by norm_num)
  rw [h]; decide

/-- C4: the D45 4x4 predictor writes `avg3(A[c+r], A[c+r+1], A[c+r+2])` at
every interior cell and replicates `above[7]` into the bottom-right cell; and
the NEON composition (truncating halving add of the outer taps, then rounding
halving add with the centre tap) equals `avg3` exactly for all sample
values. -/
theorem d45_predictor_4x4_spec :
    (∀ x y z : Nat, vrhadd (vhadd x z) y = avg3 x y z) ∧
    (∀ (above : Nat → Nat) (r c : Nat), r < 4 → c < 4 →
      vpx_highbd_d45_predictor_4x4 above r c =
        if r = 3 ∧ c = 3 then above 7
        else avg3 (above (c + r)) (above (c + r + 1)) (above (c + r + 2))) := by
  have key : ∀ x y z : Nat, vrhadd (vhadd x z) y = avg3 x y z := by
    intro x y z; simp only [vrhadd, vhadd, avg3]; omega
  refine ⟨key, fun above r c _ _ => ?_⟩
  unfold vpx_highbd_d45_predictor_4x4 d45_lane
  split
  · rfl
  · exact key _ _ _

/-- C10: the 4x4 D117 predictor's output never depends on `left[3]`: two left
columns agreeing on `left[0..2]` produce identical blocks (the `col0` lanes
that involve `left[3]` are never stored). -/
theorem d117_left3_independent (above : Nat → Nat) (tl : Nat)
    (left left' : Nat → Nat)
    (h0 : left 0 = left' 0) (h1 : left 1 = left' 1) (h2 : left 2 = left' 2) :
    ∀ r c, r < 4 → c < 4 →
      vpx_highbd_d117_predictor_4x4 above tl left r c =
        vpx_highbd_d117_predictor_4x4 above tl left' r c := by
  intro r c hr hc
  interval_cases r <;> interval_cases c <;>
    simp [vpx_highbd_d117_predictor_4x4, h0, h1, h2]

/-- C10 witness: changing only `left[3]` (0 versus 1) leaves cell (3,0), the
cell derived from the left column, unchanged. -/
theorem d117_left3_independent_witness :
    vpx_highbd_d117_predictor_4x4 exA 10 cexL 3 0 =
      vpx_highbd_d117_predictor_4x4 exA 10 (fun _ => 0) 3 0 :=
  d117_left3_independent exA 10 cexL (fun _ => 0)
    (by decide) (by decide) (by decide) 3 0 (by norm_num) (by norm_num)

/-- C8: a constant border of value `k`, for `k` equal to 0, mid-range
`2^(bd-1)` or full-scale `2^bd - 1` at depth `bd` in {8, 10, 12}, is a fixed
point of the DC, V, H and TM predictors at every supported block size: every
output cell equals `k`. -/
theorem constant_border_fixed (k bd : Nat)
    (hbd : bd = 8 ∨ bd = 10 ∨ bd = 12)
    (hk : k = 0 ∨ k = 2 ^ (bd - 1) ∨ k = 2 ^ bd - 1) :
    (∀ r c, vpx_highbd_dc_predictor_4x4 (fun _ => k) (fun _ => k) r c = k) ∧
    (∀ r c, vpx_highbd_dc_predictor_8x8 (fun _ => k) (fun _ => k) r c = k) ∧
    (∀ r c, vpx_highbd_dc_predictor_16x16 (fun _ => k) (fun _ => k) r c = k) ∧
    (∀ r c, vpx_highbd_dc_predictor_32x32 (fun _ => k) (fun _ => k) r c = k) ∧
    (∀ r c, vpx_highbd_v_predictor_4x4 (fun _ => k) r c = k) ∧
    (∀ r c, vpx_highbd_v_predictor_8x8 (fun _ => k) r c = k) ∧
    (∀ r c, vpx_highbd_v_predictor_16x16 (fun _ => k) r c = k) ∧
    (∀ r c, vpx_highbd_v_predictor_32x32 (fun _ => k) r c = k) ∧
    (∀ r c, vpx_highbd_h_predictor_4x4 (fun _ => k) r c = k) ∧
    (∀ r c, vpx_highbd_h_predictor_8x8 (fun _ => k) r c = k) ∧
    (∀ r c, vpx_highbd_h_predictor_16x16 (fun _ => k) r c = k) ∧
    (∀ r c, vpx_highbd_h_predictor_32x32 (fun _ => k) r c = k) ∧
    (∀ r c, vpx_highbd_tm_predictor_4x4 bd (fun _ => k) k (fun _ => k) r c = k) ∧
    (∀ r c, vpx_highbd_tm_predictor_8x8 bd (fun _ => k) k (fun _ => k) r c = k) ∧
    (∀ r c, vpx_highbd_tm_predictor_16x16 bd (fun _ => k) k (fun _ => k) r c = k) ∧
    (∀ r c, vpx_highbd_tm_predictor_32x32 bd (fun _ => k) k (fun _ => k) r c = k) := by
  have hk4095 : k ≤ 4095 := by
    rcases hbd with h | h | h <;> subst h <;>
      rcases hk with h' | h' | h' <;> subst h' <;> norm_num
  have hmx : (2:Nat) ^ bd - 1 ≤ 4095 := by
    rcases hbd with h | h | h <;> subst h <;> norm_num
  have hkbd : k ≤ 2 ^ bd - 1 := by
    rcases hbd with h | h | h <;> subst h <;>
      rcases hk with h' | h' | h' <;> subst h' <;> norm_num
  have htm : ∀ r c : Nat, tm_cell bd (fun _ => k) k (fun _ => k) r c = k := by
    intro r c
    rw [tm_cell_clamp bd (fun _ => k) k (fun _ => k) r c hmx hkbd hkbd hkbd]
    have h1 : (1:Nat) ≤ 2 ^ bd := Nat.one_le_two_pow
    have hcast : ((2:Int) ^ bd - 1) = ((2 ^ bd - 1 : Nat) : Int) := by
      push_cast [h1]; ring
    rw [hcast]
    omega
  refine ⟨fun r c => ?_, fun r c => ?_, fun r c => ?_, fun r c => ?_,
    fun r c => rfl, fun r c => rfl, fun r c => rfl, fun r c => rfl,
    fun r c => rfl, fun r c => rfl, fun r c => rfl, fun r c => rfl,
    fun r c => htm r c, fun r c => htm r c, fun r c => htm r c,
    fun r c => htm r c⟩
  · simp only [vpx_highbd_dc_predictor_4x4, dc_4x4_sum, u16]; omega
  · simp only [vpx_highbd_dc_predictor_8x8, dc_8x8_sum, u16]; omega
  · simp only [vpx_highbd_dc_predictor_16x16, dc_16x16_sum, u16]; omega
  · simp only [vpx_highbd_dc_predictor_32x32, dc_32x32_sum, u16, u32]; omega

/-- C8 witness: full-scale depth-10 constant border 1023, sample cells of
each mode. -/
theorem constant_border_fixed_witness :
    vpx_highbd_dc_predictor_4x4 (fun _ => 1023) (fun _ => 1023) 0 0 = 1023 ∧
    vpx_highbd_dc_predictor_32x32 (fun _ => 1023) (fun _ => 1023) 5 7 = 1023 ∧
    vpx_highbd_v_predictor_16x16 (fun _ => 1023) 2 3 = 1023 ∧
    vpx_highbd_h_predictor_8x8 (fun _ => 1023) 6 1 = 1023 ∧
    vpx_highbd_tm_predictor_4x4 10 (fun _ => 1023) 1023 (fun _ => 1023) 2 2 = 1023 := by
  have h := constant_border_fixed 1023 10 (Or.inr (Or.inl rfl))
    (Or.inr (Or.inr (by norm_num)))
  obtain ⟨h1, h2, h3, h4, h5, h6, h7, h8, h9, h10, h11, h12, h13, h14, h15, h16⟩ := h
  exact ⟨h1 0 0, h4 5 7, h7 2 3, h10 6 1, h13 2 2⟩

/-- C7 counterexample: an all-zero above row and left column [0,0,0,1],
scaled by 4 (the same relative pattern at depth 10), make the DC 4x4
predictor output 1 where 4 times the depth-8 output is 0: scaling is not
exact. -/
theorem depth_scaling_cex :
    vpx_highbd_dc_predictor_4x4 (fun _ => 0) (fun i => 4 * cexL i) 0 0 ≠
      4 * vpx_highbd_dc_predictor_4x4 (fun _ => 0) cexL 0 0 := by decide

/-- Two-tap rounding average under input scaling by 4: off by at most 3. -/
theorem avg2_scale4 (x y : Nat) :
    within3 (vrhadd (4 * x) (4 * y)) (4 * vrhadd x y) := by
  simp only [within3, vrhadd]; omega

/-- Three-tap (halve, then rounding-halve) average under input scaling by 4:
off by at most 3. -/
theorem avg3_scale4 (x y z : Nat) :
    within3 (vrhadd (vhadd (4 * x) (4 * z)) (4 * y))
      (4 * vrhadd (vhadd x z) y) := by
  simp only [within3, vrhadd, vhadd]; omega

/-- C7 amended: on a depth-8-valid border scaled by 4, the V and H outputs
scale exactly; the DC, TM, D45, D117 and D135 4x4 outputs are within 3 of 4
times the depth-8 output at every cell (rounding and clamping do not commute
with the scaling, so exactness fails — see the counterexample). -/
theorem depth_scaling_amended (above left : Nat → Nat) (tl : Nat)
    (ha : ∀ i, i < 32 → above i ≤ 255) (hl : ∀ i, i < 32 → left i ≤ 255)
    (htl : tl ≤ 255) :
    (∀ r c, vpx_highbd_v_predictor_4x4 (fun i => 4 * above i) r c =
      4 * vpx_highbd_v_predictor_4x4 above r c) ∧
    (∀ r c, vpx_highbd_h_predictor_4x4 (fun i => 4 * left i) r c =
      4 * vpx_highbd_h_predictor_4x4 left r c) ∧
    (∀ r c, within3
      (vpx_highbd_dc_predictor_4x4 (fun i => 4 * above i) (fun i => 4 * left i) r c)
      (4 * vpx_highbd_dc_predictor_4x4 above left r c)) ∧
    (∀ r c, r < 4 → c < 4 → within3
      (vpx_highbd_tm_predictor_4x4 10 (fun i => 4 * above i) (4 * tl) (fun i => 4 * left i) r c)
      (4 * vpx_highbd_tm_predictor_4x4 8 above tl left r c)) ∧
    (∀ r c, r < 4 → c < 4 → within3
      (vpx_highbd_d45_predictor_4x4 (fun i => 4 * above i) r c)
      (4 * vpx_highbd_d45_predictor_4x4 above r c)) ∧
    (∀ r c, r < 4 → c < 4 → within3
      (vpx_highbd_d117_predictor_4x4 (fun i => 4 * above i) (4 * tl) (fun i => 4 * left i) r c)
      (4 * vpx_highbd_d117_predictor_4x4 above tl left r c)) ∧
    (∀ r c, r < 4 → c < 4 → within3
      (vpx_highbd_d135_predictor_4x4 (fun i => 4 * above i) (4 * tl) (fun i => 4 * left i) r c)
      (4 * vpx_highbd_d135_predictor_4x4 above tl left r c)) := by
  refine ⟨fun r c => rfl, fun r c => rfl, fun r c => ?_,
    fun r c hr hc => ?_, fun r c hr hc => ?_, fun r c hr hc => ?_,
    fun r c hr hc => ?_⟩
  · -- DC: the sums stay far below 65536, so the lane truncations vanish
    have ha0 := ha 0 (by norm_num); have ha1 := ha 1 (by norm_num)
    have ha2 := ha 2 (by norm_num); have ha3 := ha 3 (by norm_num)
    have hl0 := hl 0 (by norm_num); have hl1 := hl 1 (by norm_num)
    have hl2 := hl 2 (by norm_num); have hl3 := hl 3 (by norm_num)
    simp only [within3, vpx_highbd_dc_predictor_4x4, dc_4x4_sum, u16]
    omega
  · -- TM: both sides are clamps; they differ by the clamp ceilings only
    have hac : above c ≤ 255 := ha c (by omega)
    have hlr : left r ≤ 255 := hl r (by omega)
    rw [vpx_highbd_tm_predictor_4x4, vpx_highbd_tm_predictor_4x4,
      tm_cell_clamp 10 (fun i => 4 * above i) (4 * tl) (fun i => 4 * left i) r c
        (by norm_num) (by show 4 * above c ≤ 2 ^ 10 - 1; norm_num; omega)
        (by show 4 * left r ≤ 2 ^ 10 - 1; norm_num; omega)
        (by norm_num; omega),
      tm_cell_clamp 8 above tl left r c (by norm_num)
        (by norm_num; omega) (by norm_num; omega) (by norm_num; omega)]
    simp only [within3]
    push_cast
    norm_num
    omega
  · -- D45
    simp only [vpx_highbd_d45_predictor_4x4, d45_lane]
    by_cases hP : r = 3 ∧ c = 3
    · simp only [if_pos hP, within3]; omega
    · simp only [if_neg hP]; exact avg3_scale4 _ _ _
  · -- D117: every stored lane is a two-tap or three-tap average
    interval_cases r <;> interval_cases c <;>
      simp [vpx_highbd_d117_predictor_4x4] <;>
      first
        | exact avg2_scale4 _ _
        | exact avg3_scale4 _ _ _
  · -- D135: every cell is a three-tap average of the border walk
    have hwalk : ∀ j, d135_walk (fun i => 4 * above i) (4 * tl)
        (fun i => 4 * left i) j = 4 * d135_walk above tl left j := by
      intro j; unfold d135_walk; split_ifs <;> rfl
    simp only [vpx_highbd_d135_predictor_4x4, d135_lane, hwalk]
    exact avg3_scale4 _ _ _

/-- C7 amended witness: a concrete depth-8 border, DC cell (0,0) and TM cell
(1,1). -/
theorem depth_scaling_amended_witness :
    within3
      (vpx_highbd_dc_predictor_4x4 (fun i => 4 * exL i) (fun i => 4 * cexL i) 0 0)
      (4 * vpx_highbd_dc_predictor_4x4 exL cexL 0 0) ∧
    within3
      (vpx_highbd_tm_predictor_4x4 10 (fun i => 4 * exL i) (4 * 7) (fun i => 4 * cexL i) 1 1)
      (4 * vpx_highbd_tm_predictor_4x4 8 exL 7 cexL 1 1) := by
  have h := depth_scaling_amended exL cexL 7 (by decide) (by decide) (by decide)
  exact ⟨h.2.2.1 0 0, h.2.2.2.1 1 1 (by norm_num) (by norm_num)⟩

/-- A run of consecutive stores leaves every address outside its range
unchanged. -/
theorem storeN_out (m : Nat → Nat) (base : Nat) (v : Nat → Nat) (n a : Nat)
    (h : ∀ i, i < n → a ≠ base + i) : storeN m base v n a = m a := by
  induction n with
  | zero => rfl
  | succ n ih =>
    simp only [storeN, wstore]
    rw [if_neg (h n (by omega))]
    exact ih (fun i hi => h i (by omega))

/-- A run of consecutive stores writes `v i` at `base + i`. -/
theorem storeN_at (m : Nat → Nat) (base : Nat) (v : Nat → Nat) (n i : Nat)
    (h : i < n) : storeN m base v n (base + i) = v i := by
  induction n with
  | zero => omega
  | succ n ih =>
    simp only [storeN, wstore]
    by_cases hi : i = n
    · subst hi; rw [if_pos rfl]
    · rw [if_neg (by omega)]
      exact ih (by omega)

/-- `vst2q_u16` leaves every address outside `[base, base+16)` unchanged. -/
theorem vst2q_run_out (m : Nat → Nat) (base : Nat) (v0 v1 : Nat → Nat) (a : Nat)
    (h : ∀ i, i < 16 → a ≠ base + i) : vst2q_run m base v0 v1 a = m a :=
  storeN_out _ _ _ _ _ h

/-- `vst2q_u16` interleaves its two half-vectors. -/
theorem vst2q_run_at (m : Nat → Nat) (base : Nat) (v0 v1 : Nat → Nat) (i : Nat)
    (h : i < 16) : vst2q_run m base v0 v1 (base + i) =
      if i % 2 = 0 then v0 (i / 2) else v1 (i / 2) :=
  storeN_at _ _ _ _ _ h

/-- The DC 4x4 kernel touches no destination sample outside its 4x4
rectangle (stride gaps included). -/
theorem dc_predictor_4x4_run_frame (m : Nat → Nat) (dst stride : Nat)
    (above left : Nat → Nat) (a : Nat)
    (h : ∀ r, r < 4 → ∀ c, c < 4 → a ≠ dst + r * stride + c) :
    vpx_highbd_dc_predictor_4x4_run m dst stride above left a = m a := by
  unfold vpx_highbd_dc_predictor_4x4_run dc_store_4x4_run
  rw [storeN_out _ _ _ _ _ (fun i hi => by have := h 3 (by norm_num) i hi; omega),
      storeN_out _ _ _ _ _ (fun i hi => by have := h 2 (by norm_num) i hi; omega),
      storeN_out _ _ _ _ _ (fun i hi => by have := h 1 (by norm_num) i hi; omega),
      storeN_out _ _ _ _ _ (fun i hi => by have := h 0 (by norm_num) i hi; omega)]

/-- The DC 4x4 kernel writes exactly the per-cell value at every rectangle
cell. -/
theorem dc_predictor_4x4_run_cells (m : Nat → Nat) (dst stride : Nat)
    (above left : Nat → Nat) (r c : Nat) (hs : 4 ≤ stride)
    (hr : r < 4) (hc : c < 4) :
    vpx_highbd_dc_predictor_4x4_run m dst stride above left (dst + r * stride + c) =
      vpx_highbd_dc_predictor_4x4 above left r c := by
  unfold vpx_highbd_dc_predictor_4x4_run dc_store_4x4_run vpx_highbd_dc_predictor_4x4
  interval_cases r
  · rw [storeN_out _ _ _ _ _ (fun i hi => by omega),
        storeN_out _ _ _ _ _ (fun i hi => by omega),
        storeN_out _ _ _ _ _ (fun i hi => by omega),
        show dst + 0 * stride + c = dst + c from by ring,
        storeN_at _ _ _ _ _ hc]
  · rw [storeN_out _ _ _ _ _ (fun i hi => by omega),
        storeN_out _ _ _ _ _ (fun i hi => by omega),
        show dst + 1 * stride + c = dst + stride + c from by ring,
        storeN_at _ _ _ _ _ hc]
  · rw [storeN_out _ _ _ _ _ (fun i hi => by omega),
        show dst + 2 * stride + c = dst + 2 * stride + c from rfl,
        storeN_at _ _ _ _ _ hc]
  · rw [storeN_at _ _ _ _ _ hc]

/-- The D45 4x4 kernel touches no destination sample outside its 4x4
rectangle. -/
theorem d45_predictor_4x4_run_frame (m : Nat → Nat) (dst stride : Nat)
    (above : Nat → Nat) (a : Nat)
    (h : ∀ r, r < 4 → ∀ c, c < 4 → a ≠ dst + r * stride + c) :
    vpx_highbd_d45_predictor_4x4_run m dst stride above a = m a := by
  unfold vpx_highbd_d45_predictor_4x4_run
  simp only [wstore]
  rw [if_neg (by have := h 3 (by norm_num) 3 (by norm_num); omega)]
  rw [storeN_out _ _ _ _ _ (fun i hi => by have := h 3 (by norm_num) i hi; omega),
      storeN_out _ _ _ _ _ (fun i hi => by have := h 2 (by norm_num) i hi; omega),
      storeN_out _ _ _ _ _ (fun i hi => by have := h 1 (by norm_num) i hi; omega),
      storeN_out _ _ _ _ _ (fun i hi => by have := h 0 (by norm_num) i hi; omega)]

/-- The D45 4x4 kernel writes exactly the per-cell value at every rectangle
cell (the final lane store supplies cell (3,3)). -/
theorem d45_predictor_4x4_run_cells (m : Nat → Nat) (dst stride : Nat)
    (above : Nat → Nat) (r c : Nat) (hs : 4 ≤ stride)
    (hr : r < 4) (hc : c < 4) :
    vpx_highbd_d45_predictor_4x4_run m dst stride above (dst + r * stride + c) =
      vpx_highbd_d45_predictor_4x4 above r c := by
  unfold vpx_highbd_d45_predictor_4x4_run vpx_highbd_d45_predictor_4x4
  simp only [wstore]
  interval_cases r
  · rw [if_neg (by omega),
        storeN_out _ _ _ _ _ (fun i hi => by omega),
        storeN_out _ _ _ _ _ (fun i hi => by omega),
        storeN_out _ _ _ _ _ (fun i hi => by omega),
        show dst + 0 * stride + c = dst + c from by ring,
        storeN_at _ _ _ _ _ hc, if_neg (by omega)]
    simp only [d45_lane, Nat.add_zero]
  · rw [if_neg (by omega),
        storeN_out _ _ _ _ _ (fun i hi => by omega),
        storeN_out _ _ _ _ _ (fun i hi => by omega),
        show dst + 1 * stride + c = dst + stride + c from by ring,
        storeN_at _ _ _ _ _ hc, if_neg (by omega)]
    simp only [d45_lane]
    rw [Nat.add_comm 1 c]
  · rw [if_neg (by omega),
        storeN_out _ _ _ _ _ (fun i hi => by omega),
        storeN_at _ _ _ _ _ hc, if_neg (by omega)]
    simp only [d45_lane]
    rw [Nat.add_comm 2 c]
  · by_cases hc3 : c = 3
    · subst hc3
      rw [if_pos rfl, if_pos (by norm_num)]
    · rw [if_neg (by omega),
          storeN_at _ _ _ _ _ hc, if_neg (by omega)]
      simp only [d45_lane]
      rw [Nat.add_comm 3 c]

/-- The first `n` rows of the V 32x32 loop leave every address outside their
rectangle unchanged. -/
theorem v32_rows_out (stride : Nat) (above : Nat → Nat) (dst : Nat)
    (m : Nat → Nat) (n a : Nat)
    (h : ∀ r, r < n → ∀ c, c < 32 → a ≠ dst + r * stride + c) :
    v32_rows stride above dst m n a = m a := by
  induction n with
  | zero => rfl
  | succ n ih =>
    simp only [v32_rows]
    rw [vst2q_run_out _ _ _ _ _
          (fun i hi => by have := h n (by omega) (16 + i) (by omega); omega),
        vst2q_run_out _ _ _ _ _
          (fun i hi => by have := h n (by omega) i (by omega); omega)]
    exact ih (fun r hr c hc => h r (by omega) c hc)

/-- The first `n` rows of the V 32x32 loop write `above c` at column c of
every written row. -/
theorem v32_rows_at (stride : Nat) (above : Nat → Nat) (dst : Nat)
    (m : Nat → Nat) (n r c : Nat) (hs : 32 ≤ stride) (hr : r < n)
    (hc : c < 32) :
    v32_rows stride above dst m n (dst + r * stride + c) = above c := by
  induction n with
  | zero => omega
  | succ n ih =>
    simp only [v32_rows]
    by_cases hrn : r = n
    · subst hrn
      by_cases h16 : c < 16
      · rw [vst2q_run_out _ _ _ _ _ (fun i hi => by omega),
            vst2q_run_at _ _ _ _ _ h16]
        by_cases hp : c % 2 = 0
        · rw [if_pos hp]
          show above (2 * (c / 2)) = above c
          congr 1; omega
        · rw [if_neg hp]
          show above (2 * (c / 2) + 1) = above c
          congr 1; omega
      · rw [show dst + r * stride + c = dst + r * stride + 16 + (c - 16) from by omega,
            vst2q_run_at _ _ _ _ _ (by omega)]
        by_cases hp : (c - 16) % 2 = 0
        · rw [if_pos hp]
          show above (16 + 2 * ((c - 16) / 2)) = above c
          congr 1; omega
        · rw [if_neg hp]
          show above (16 + 2 * ((c - 16) / 2) + 1) = above c
          congr 1; omega
    · have hmul : r * stride + stride ≤ n * stride := by
        have h1 : (r + 1) * stride ≤ n * stride :=
          Nat.mul_le_mul_right stride (by omega)
        calc r * stride + stride = (r + 1) * stride := by ring
          _ ≤ n * stride := h1
      rw [vst2q_run_out _ _ _ _ _ (fun i hi => by omega),
          vst2q_run_out _ _ _ _ _ (fun i hi => by omega)]
      exact ih (by omega)

/-- Running stores over an appended sequence composes. -/
theorem runStores_append (m : Nat → Nat) (L1 L2 : List VecStore) :
    runStores m (L1 ++ L2) = runStores (runStores m L1) L2 := by
  induction L1 generalizing m with
  | nil => rfl
  | cons s rest ih => simp only [List.cons_append, runStores]; exact ih _

/-- A grid of row stores leaves every address outside its rectangle
unchanged. -/
theorem gridStores_out (dst stride W : Nat) (v : Nat → Nat → Nat) (H : Nat)
    (m : Nat → Nat) (a : Nat)
    (h : ∀ r, r < H → ∀ c, c < W → a ≠ dst + r * stride + c) :
    runStores m (gridStores dst stride W v H) a = m a := by
  induction H with
  | zero => rfl
  | succ n ih =>
    rw [gridStores, runStores_append]
    simp only [runStores]
    rw [storeN_out _ _ _ _ _ (fun i hi => h n (by omega) i hi)]
    exact ih (fun r hr c hc => h r (by omega) c hc)

/-- A grid of row stores writes `v r c` at cell (r, c) whenever the rows do
not alias (stride at least the row width). -/
theorem gridStores_at (dst stride W : Nat) (v : Nat → Nat → Nat) (H : Nat)
    (m : Nat → Nat) (r c : Nat) (hs : W ≤ stride) (hr : r < H) (hc : c < W) :
    runStores m (gridStores dst stride W v H) (dst + r * stride + c) = v r c := by
  induction H with
  | zero => omega
  | succ n ih =>
    rw [gridStores, runStores_append]
    simp only [runStores]
    by_cases hrn : r = n
    · subst hrn
      exact storeN_at _ _ _ _ _ hc
    · have hmul : r * stride + stride ≤ n * stride := by
        have h1 : (r + 1) * stride ≤ n * stride :=
          Nat.mul_le_mul_right stride (by omega)
        calc r * stride + stride = (r + 1) * stride := by ring
          _ ≤ n * stride := h1
      rw [storeN_out _ _ _ _ _ (fun i hi => by omega)]
      exact ih (by omega)

/-- Every kernel whose store sequence is a row grid satisfies the
`WritesExactly` frame contract. -/
theorem gridRun_writesExactly (W : Nat) (v : Nat → Nat → Nat) (H : Nat) :
    WritesExactly (fun m dst stride => runStores m (gridStores dst stride W v H)) H W := by
  constructor
  · intro m dst stride a h
    exact gridStores_out dst stride W v H m a h
  · intro m m' dst stride r c hs hr hc
    simp only []
    rw [gridStores_at dst stride W v H m r c hs hr hc,
        gridStores_at dst stride W v H m' r c hs hr hc]

/-- The DC 4x4 kernel's frame contract, from its explicit store model. -/
theorem dc4_run_writes (above left : Nat → Nat) :
    WritesExactly
      (fun m dst stride => vpx_highbd_dc_predictor_4x4_run m dst stride above left)
      4 4 := by
  constructor
  · intro m dst stride a h
    exact dc_predictor_4x4_run_frame m dst stride above left a h
  · intro m m' dst stride r c hs hr hc
    simp only []
    rw [dc_predictor_4x4_run_cells m dst stride above left r c hs hr hc,
        dc_predictor_4x4_run_cells m' dst stride above left r c hs hr hc]

/-- The D45 4x4 kernel's frame contract, from its explicit store model. -/
theorem d45_4_run_writes (above : Nat → Nat) :
    WritesExactly
      (fun m dst stride => vpx_highbd_d45_predictor_4x4_run m dst stride above)
      4 4 := by
  constructor
  · intro m dst stride a h
    exact d45_predictor_4x4_run_frame m dst stride above a h
  · intro m m' dst stride r c hs hr hc
    simp only []
    rw [d45_predictor_4x4_run_cells m dst stride above r c hs hr hc,
        d45_predictor_4x4_run_cells m' dst stride above r c hs hr hc]

/-- The V 32x32 kernel's frame contract, from its explicit store model. -/
theorem v32_run_writes (above : Nat → Nat) :
    WritesExactly
      (fun m dst stride => vpx_highbd_v_predictor_32x32_run m dst stride above)
      32 32 := by
  constructor
  · intro m dst stride a h
    exact v32_rows_out stride above dst m 32 a h
  · intro m m' dst stride r c hs hr hc
    simp only [vpx_highbd_v_predictor_32x32_run]
    rw [v32_rows_at stride above dst m 32 r c hs hr hc,
        v32_rows_at stride above dst m' 32 r c hs hr hc]

/-- C9: every intra prediction kernel of the file — DC (combined, left-only,
top-only, 128) , V, H, TM, D45, D117 and D135, at every supported block size
— writes exactly its `width x height` destination rectangle at the given
stride: every destination sample outside the rectangle (stride gaps
included) is unchanged, and every in-rectangle sample is overwritten with a
value independent of the destination's prior contents.  For the three
kernels with explicit store models the in-rectangle samples are moreover
exactly the per-cell predicted values.  Each kernel is a function of its
Border Context arguments alone, which the embedding passes read-only, so the
border is never mutated. -/
theorem intra_frame_effect :
    ∀ (above left : Nat → Nat) (tl bd : Nat),
      WritesExactly (fun m dst stride =>
        vpx_highbd_dc_predictor_4x4_run m dst stride above left) 4 4 ∧
      WritesExactly (fun m dst stride =>
        vpx_highbd_dc_left_predictor_4x4_run m dst stride left) 4 4 ∧
      WritesExactly (fun m dst stride =>
        vpx_highbd_dc_top_predictor_4x4_run m dst stride above) 4 4 ∧
      WritesExactly (fun m dst stride =>
        vpx_highbd_dc_128_predictor_4x4_run m dst stride bd) 4 4 ∧
      WritesExactly (fun m dst stride =>
        vpx_highbd_dc_predictor_8x8_run m dst stride above left) 8 8 ∧
      WritesExactly (fun m dst stride =>
        vpx_highbd_dc_left_predictor_8x8_run m dst stride left) 8 8 ∧
      WritesExactly (fun m dst stride =>
        vpx_highbd_dc_top_predictor_8x8_run m dst stride above) 8 8 ∧
      WritesExactly (fun m dst stride =>
        vpx_highbd_dc_128_predictor_8x8_run m dst stride bd) 8 8 ∧
      WritesExactly (fun m dst stride =>
        vpx_highbd_dc_predictor_16x16_run m dst stride above left) 16 16 ∧
      WritesExactly (fun m dst stride =>
        vpx_highbd_dc_left_predictor_16x16_run m dst stride left) 16 16 ∧
      WritesExactly (fun m dst stride =>
        vpx_highbd_dc_top_predictor_16x16_run m dst stride above) 16 16 ∧
      WritesExactly (fun m dst stride =>
        vpx_highbd_dc_128_predictor_16x16_run m dst stride bd) 16 16 ∧
      WritesExactly (fun m dst stride =>
        vpx_highbd_dc_predictor_32x32_run m dst stride above left) 32 32 ∧
      WritesExactly (fun m dst stride =>
        vpx_highbd_dc_left_predictor_32x32_run m dst stride left) 32 32 ∧
      WritesExactly (fun m dst stride =>
        vpx_highbd_dc_top_predictor_32x32_run m dst stride above) 32 32 ∧
      WritesExactly (fun m dst stride =>
        vpx_highbd_dc_128_predictor_32x32_run m dst stride bd) 32 32 ∧
      WritesExactly (fun m dst stride =>
        vpx_highbd_v_predictor_4x4_run m dst stride above) 4 4 ∧
      WritesExactly (fun m dst stride =>
        vpx_highbd_v_predictor_8x8_run m dst stride above) 8 8 ∧
      WritesExactly (fun m dst stride =>
        vpx_highbd_v_predictor_16x16_run m dst stride above) 16 16 ∧
      WritesExactly (fun m dst stride =>
        vpx_highbd_v_predictor_32x32_run m dst stride above) 32 32 ∧
      WritesExactly (fun m dst stride =>
        vpx_highbd_h_predictor_4x4_run m dst stride left) 4 4 ∧
      WritesExactly (fun m dst stride =>
        vpx_highbd_h_predictor_8x8_run m dst stride left) 8 8 ∧
      WritesExactly (fun m dst stride =>
        vpx_highbd_h_predictor_16x16_run m dst stride left) 16 16 ∧
      WritesExactly (fun m dst stride =>
        vpx_highbd_h_predictor_32x32_run m dst stride left) 32 32 ∧
      WritesExactly (fun m dst stride =>
        vpx_highbd_tm_predictor_4x4_run m dst stride bd above tl left) 4 4 ∧
      WritesExactly (fun m dst stride =>
        vpx_highbd_tm_predictor_8x8_run m dst stride bd above tl left) 8 8 ∧
      WritesExactly (fun m dst stride =>
        vpx_highbd_tm_predictor_16x16_run m dst stride bd above tl left) 16 16 ∧
      WritesExactly (fun m dst stride =>
        vpx_highbd_tm_predictor_32x32_run m dst stride bd above tl left) 32 32 ∧
      WritesExactly (fun m dst stride =>
        vpx_highbd_d45_predictor_4x4_run m dst stride above) 4 4 ∧
      WritesExactly (fun m dst stride =>
        vpx_highbd_d45_predictor_8x8_run m dst stride above) 8 8 ∧
      WritesExactly (fun m dst stride =>
        vpx_highbd_d45_predictor_16x16_run m dst stride above) 16 16 ∧
      WritesExactly (fun m dst stride =>
        vpx_highbd_d45_predictor_32x32_run m dst stride above) 32 32 ∧
      WritesExactly (fun m dst stride =>
        vpx_highbd_d117_predictor_4x4_run m dst stride above tl left) 4 4 ∧
      WritesExactly (fun m dst stride =>
        vpx_highbd_d117_predictor_8x8_run m dst stride above tl left) 8 8 ∧
      WritesExactly (fun m dst stride =>
        vpx_highbd_d117_predictor_16x16_run m dst stride above tl left) 16 16 ∧
      WritesExactly (fun m dst stride =>
        vpx_highbd_d117_predictor_32x32_run m dst stride above tl left) 32 32 ∧
      WritesExactly (fun m dst stride =>
        vpx_highbd_d135_predictor_4x4_run m dst stride above tl left) 4 4 ∧
      WritesExactly (fun m dst stride =>
        vpx_highbd_d135_predictor_8x8_run m dst stride above tl left) 8 8 ∧
      WritesExactly (fun m dst stride =>
        vpx_highbd_d135_predictor_16x16_run m dst stride above tl left) 16 16 ∧
      WritesExactly (fun m dst stride =>
        vpx_highbd_d135_predictor_32x32_run m dst stride above tl left) 32 32 ∧
      (∀ (m : Nat → Nat) (dst stride r c : Nat), 4 ≤ stride → r < 4 → c < 4 →
        vpx_highbd_dc_predictor_4x4_run m dst stride above left
            (dst + r * stride + c) =
          vpx_highbd_dc_predictor_4x4 above left r c) ∧
      (∀ (m : Nat → Nat) (dst stride r c : Nat), 4 ≤ stride → r < 4 → c < 4 →
        vpx_highbd_d45_predictor_4x4_run m dst stride above
            (dst + r * stride + c) =
          vpx_highbd_d45_predictor_4x4 above r c) ∧
      (∀ (m : Nat → Nat) (dst stride r c : Nat), 32 ≤ stride → r < 32 → c < 32 →
        vpx_highbd_v_predictor_32x32_run m dst stride above
            (dst + r * stride + c) =
          vpx_highbd_v_predictor_32x32 above r c) := by
  intro above left tl bd
  refine ⟨dc4_run_writes above left,
    gridRun_writesExactly _ _ _, gridRun_writesExactly _ _ _,
    gridRun_writesExactly _ _ _, gridRun_writesExactly _ _ _,
    gridRun_writesExactly _ _ _, gridRun_writesExactly _ _ _,
    gridRun_writesExactly _ _ _, gridRun_writesExactly _ _ _,
    gridRun_writesExactly _ _ _, gridRun_writesExactly _ _ _,
    gridRun_writesExactly _ _ _, gridRun_writesExactly _ _ _,
    gridRun_writesExactly _ _ _, gridRun_writesExactly _ _ _,
    gridRun_writesExactly _ _ _, gridRun_writesExactly _ _ _,
    gridRun_writesExactly _ _ _, gridRun_writesExactly _ _ _,
    v32_run_writes above,
    gridRun_writesExactly _ _ _, gridRun_writesExactly _ _ _,
    gridRun_writesExactly _ _ _, gridRun_writesExactly _ _ _,
    gridRun_writesExactly _ _ _, gridRun_writesExactly _ _ _,
    gridRun_writesExactly _ _ _, gridRun_writesExactly _ _ _,
    d45_4_run_writes above,
    gridRun_writesExactly _ _ _, gridRun_writesExactly _ _ _,
    gridRun_writesExactly _ _ _,
    gridRun_writesExactly _ _ _, gridRun_writesExactly _ _ _,
    gridRun_writesExactly _ _ _, gridRun_writesExactly _ _ _,
    gridRun_writesExactly _ _ _, gridRun_writesExactly _ _ _,
    gridRun_writesExactly _ _ _, gridRun_writesExactly _ _ _,
    fun m dst stride r c hs hr hc =>
      dc_predictor_4x4_run_cells m dst stride above left r c hs hr hc,
    fun m dst stride r c hs hr hc =>
      d45_predictor_4x4_run_cells m dst stride above r c hs hr hc,
    fun m dst stride r c hs hr hc =>
      v32_rows_at stride above dst m 32 r c hs hr hc⟩
